import Mathlib

/-!
# Verification of the schwaizer-opendata-mcp server core

A shallow embedding of the MCP server for the opendata.swiss CKAN catalog:
the CKAN upstream client (`src/api/ckan-client.js`), the per-tool zod
validation layer and tool handlers (`src/tools/*.js`), and the CallTool
dispatch core (`src/index.js`).

JavaScript values are modelled by `JVal` (JSON values plus `undefined`);
JS numbers are modelled by `Rat` (exact rationals: the programs in scope
perform only comparisons, `Math.min`/`Math.max` clamping and small
integer arithmetic, where float rounding never occurs).
-/

set_option autoImplicit false

namespace OpendataMcp

/-- A JavaScript value as it flows through the server: the six JSON shapes
plus `undefined`, which JS distinguishes from `null`. -/
inductive JVal where
  | undefined
  | null
  | bool (b : Bool)
  | num (q : Rat)
  | str (s : String)
  | arr (xs : List JVal)
  | obj (fields : List (String × JVal))

namespace JVal

/-- `v === undefined`. -/
def isUndefinedV : JVal → Bool
  | .undefined => true
  | _ => false

/-- Property read `v[k]`: on objects the first binding of `k` (argument
objects have unique keys per the Invocation Request data model), `undefined`
when the key is missing or the value is not an object. -/
def jGet (v : JVal) (k : String) : JVal :=
  match v with
  | .obj fs =>
    match fs.lookup k with
    | some w => w
    | none => .undefined
  | _ => .undefined

/-- JS truthiness. -/
def truthy : JVal → Bool
  | .undefined => false
  | .null => false
  | .bool b => b
  | .num q => q != 0
  | .str s => s != ""
  | .arr _ => true
  | .obj _ => true

/-- `v && typeof v === 'object'`: a truthy value of typeof `object`
(arrays included, `null` excluded by the truthiness guard). -/
def isTruthyObject : JVal → Bool
  | .obj _ => true
  | .arr _ => true
  | _ => false

/-- `Array.isArray(v)`. -/
def isArrayV : JVal → Bool
  | .arr _ => true
  | _ => false

/-- `typeof v === 'number'`. -/
def isNumberV : JVal → Bool
  | .num _ => true
  | _ => false

/-- `typeof v === 'string'`. -/
def isStringV : JVal → Bool
  | .str _ => true
  | _ => false

/-- `typeof v === 'boolean'`. -/
def isBooleanV : JVal → Bool
  | .bool _ => true
  | _ => false

/-- A plain (non-array) object, as accepted by `z.record`. -/
def isPlainObject : JVal → Bool
  | .obj _ => true
  | _ => false

end JVal

open JVal

/-! ## JSON serialization (`JSON.stringify`)

Both the compact form (used by `encodeParam` for query parameters and by
`ky` for POST bodies) and the two-space indented form
(`JSON.stringify(data, null, 2)` used for envelope text) are modelled.
Object fields whose value is `undefined` are omitted; `undefined` array
elements serialize as `null`, per JS semantics. -/

/-- Left-pad the decimal digits of `n` with zeros to width `w`. -/
def padNum (w : Nat) (n : Nat) : String :=
  let s := toString n
  if s.length < w then String.mk (List.replicate (w - s.length) '0') ++ s else s

/-- Hex digit for `n < 16`. -/
def hexDigit (n : Nat) : Char :=
  if n < 10 then Char.ofNat (48 + n) else Char.ofNat (97 + (n - 10))

/-- JSON string-character escaping as performed by `JSON.stringify`. -/
def jsonEscapeChar (c : Char) : List Char :=
  if c = '"' then ['\\', '"']
  else if c = '\\' then ['\\', '\\']
  else if c = '\n' then ['\\', 'n']
  else if c = '\r' then ['\\', 'r']
  else if c = '\t' then ['\\', 't']
  else if c = Char.ofNat 8 then ['\\', 'b']
  else if c = Char.ofNat 12 then ['\\', 'f']
  else if c.toNat < 32 then
    ['\\', 'u', '0', '0', hexDigit (c.toNat / 16), hexDigit (c.toNat % 16)]
  else [c]

/-- JSON quoting of a string literal. -/
def jsonQuote (s : String) : String :=
  "\"" ++ String.mk (s.toList.flatMap jsonEscapeChar) ++ "\""

/-- Number rendering. JS prints integral doubles without a fractional part;
non-integral doubles (which never arise on the paths in scope, as the only
arithmetic is clamping) fall back to the exact rational rendering. -/
def jsonNum (q : Rat) : String :=
  if q.den = 1 then toString q.num else toString q

mutual

/-- Compact `JSON.stringify(v)`. -/
def jsonStringify : JVal → String
  | .undefined => "null"
  | .null => "null"
  | .bool b => if b then "true" else "false"
  | .num q => jsonNum q
  | .str s => jsonQuote s
  | .arr xs => "[" ++ String.intercalate "," (jsonStringifyList xs) ++ "]"
  | .obj fs => "\x7b" ++ String.intercalate "," (jsonStringifyFields fs) ++ "\x7d"

def jsonStringifyList : List JVal → List String
  | [] => []
  | v :: vs => jsonStringify v :: jsonStringifyList vs

def jsonStringifyFields : List (String × JVal) → List String
  | [] => []
  | (k, v) :: fs =>
    match v with
    | .undefined => jsonStringifyFields fs
    | v => (jsonQuote k ++ ":" ++ jsonStringify v) :: jsonStringifyFields fs

end

/-- The keys that survive `JSON.stringify` of an object: fields whose value
is not `undefined` (note `null`-valued fields are retained). -/
def serializedObjKeys (fs : List (String × JVal)) : List String :=
  (fs.filter (fun kv => !kv.2.isUndefinedV)).map Prod.fst

def indentOf (n : Nat) : String := String.mk (List.replicate n ' ')

mutual

/-- Indented `JSON.stringify(v, null, 2)`, at nesting depth `lvl`. -/
def jsonStringify2 (lvl : Nat) : JVal → String
  | .undefined => "null"
  | .null => "null"
  | .bool b => if b then "true" else "false"
  | .num q => jsonNum q
  | .str s => jsonQuote s
  | .arr [] => "[]"
  | .arr (x :: xs) =>
    "[\n" ++ String.intercalate ",\n"
      ((jsonStringify2List (lvl + 1) (x :: xs)).map (fun s => indentOf (2 * (lvl + 1)) ++ s))
      ++ "\n" ++ indentOf (2 * lvl) ++ "]"
  | .obj fs =>
    match jsonStringify2Fields (lvl + 1) fs with
    | [] => "\x7b\x7d"
    | ss =>
      "\x7b\n" ++ String.intercalate ",\n" (ss.map (fun s => indentOf (2 * (lvl + 1)) ++ s))
        ++ "\n" ++ indentOf (2 * lvl) ++ "\x7d"

def jsonStringify2List (lvl : Nat) : List JVal → List String
  | [] => []
  | v :: vs => jsonStringify2 lvl v :: jsonStringify2List lvl vs

def jsonStringify2Fields (lvl : Nat) : List (String × JVal) → List String
  | [] => []
  | (k, v) :: fs =>
    match v with
    | .undefined => jsonStringify2Fields lvl fs
    | v => (jsonQuote k ++ ": " ++ jsonStringify2 lvl v) :: jsonStringify2Fields lvl fs

end

/-! ## Runtime configuration (`src/config.js`)

Resolved once from the environment; only the fields the core consumes. -/

structure Config where
  ENABLE_SQL : Bool
  TIMEOUT_MS : Rat
  MAX_ROWS : Rat
  DEFAULT_ROWS : Rat
  deriving Repr

/-- The configuration with all defaults (no environment overrides). -/
def defaultConfig : Config :=
  { ENABLE_SQL := false, TIMEOUT_MS := 15000, MAX_ROWS := 1000, DEFAULT_ROWS := 25 }

/-! ## Upstream client request building (`src/api/ckan-client.js`) -/

inductive Method where
  | get
  | post
  deriving Repr, DecidableEq

/-- One outgoing HTTP request against the catalog action API.
`params` is the `URLSearchParams` mapping built for GET calls (after
`buildSearchParams`); `body` is the JSON payload object handed to the HTTP
client for POST calls (before wire serialization, which is modelled by
`jsonStringify`). -/
structure Request where
  method : Method
  action : String
  params : List (String × JVal)
  body : Option JVal
  timeout : Rat

/-- `encodeParam`: arrays and objects are JSON-encoded; scalars pass as-is. -/
def encodeParam : JVal → JVal
  | .arr xs => .str (jsonStringify (.arr xs))
  | .obj fs => .str (jsonStringify (.obj fs))
  | v => v

/-- Whether `buildSearchParams` keeps a value (it skips `undefined`/`null`). -/
def keepParam : JVal → Bool
  | .undefined => false
  | .null => false
  | _ => true

/-- `buildSearchParams`: build the query-parameter mapping, skipping
`undefined`/`null` values and encoding the rest. -/
def buildSearchParams : List (String × JVal) → List (String × JVal)
  | [] => []
  | (k, v) :: rest =>
    if keepParam v then (k, encodeParam v) :: buildSearchParams rest
    else buildSearchParams rest

/-- The per-request timeout chosen by `getAction`/`postAction`: doubled for
the global activity feed, the configured default otherwise. -/
def perRequestTimeout (cfg : Config) (actionName : String) : Rat :=
  if actionName = "recently_changed_packages_activity_list" then cfg.TIMEOUT_MS * 2
  else cfg.TIMEOUT_MS

/-- `getAction`: GET wrapper for CKAN action endpoints with query params. -/
def getAction (cfg : Config) (path : String) (params : List (String × JVal))
    (actionName : String) : Request :=
  { method := .get
    action := path
    params := buildSearchParams params
    body := none
    timeout := perRequestTimeout cfg actionName }

/-- `postAction`: POST wrapper for CKAN action endpoints with a JSON body. -/
def postAction (cfg : Config) (path : String) (json : JVal)
    (actionName : String) : Request :=
  { method := .post
    action := path
    params := []
    body := some json
    timeout := perRequestTimeout cfg actionName }

end OpendataMcp

namespace OpendataMcp

open JVal

/-! ## Character classes of the JS regexes in scope (ASCII fragment) -/

/-- JS regex `\w` / word character: `[A-Za-z0-9_]`. -/
def isWordChar (c : Char) : Bool :=
  ('a' ≤ c && c ≤ 'z') || ('A' ≤ c && c ≤ 'Z') || ('0' ≤ c && c ≤ '9') || c = '_'

/-- JS regex `\s` (the ASCII whitespace characters). -/
def isSpaceChar (c : Char) : Bool :=
  c = ' ' || c = '\t' || c = '\n' || c = '\r' || c = Char.ofNat 11 || c = Char.ofNat 12

/-- ASCII lower-casing, as used by the case-insensitive verb match. -/
def asciiLower (c : Char) : Char :=
  if 'A' ≤ c && c ≤ 'Z' then Char.ofNat (c.toNat + 32) else c

/-! ## The fq normalization regexes of `packageSearch`

Regex 1: `(\borganization:)([^"\s][^\s]*)` replaced globally by
`organization:"<capture 2>"`.
Regex 2: `\borganization:"([^"]+)"` replaced globally by
`(organization:"<capture 1>" OR publisher:"<capture 1>")`.
Both are modelled by a left-to-right scanner that attempts a match at each
position and otherwise advances one character, as the JS regex engine does
for a global `String.replace`; the `\b` state is carried as `prevOk`
(whether the previous original character, if any, is a non-word character).
-/

/-- Match a literal pattern as a list-prefix, returning the remainder. -/
def matchChars : List Char → List Char → Option (List Char)
  | [], s => some s
  | _ :: _, [] => none
  | p :: ps, c :: cs => if p = c then matchChars ps cs else none

def orgLit : List Char := "organization:".toList

/-- Attempt regex 1 at the current position: `\borganization:` followed by
one character that is neither a quote nor whitespace, then a greedy run of
non-whitespace. Returns (captured slug, remainder). -/
def matchOrg1 (prevOk : Bool) (s : List Char) : Option (List Char × List Char) :=
  if prevOk then
    match matchChars orgLit s with
    | none => none
    | some rest =>
      match rest with
      | [] => none
      | c :: cs =>
        if c = '"' || isSpaceChar c then none
        else some (c :: cs.takeWhile (fun d => !isSpaceChar d),
                   cs.dropWhile (fun d => !isSpaceChar d))
  else none

/-- One global-replace pass of regex 1. Fuel decreases by one per step and
every step consumes at least one character, so `s.length` fuel suffices. -/
def replaceOrg1Aux : Nat → Bool → List Char → List Char
  | 0, _, s => s
  | fuel + 1, prevOk, s =>
    match matchOrg1 prevOk s with
    | some (slug, rest) =>
      (orgLit ++ '"' :: (slug ++ ['"']))
        ++ replaceOrg1Aux fuel (!isWordChar (slug.getLastD ':')) rest
    | none =>
      match s with
      | [] => []
      | c :: cs => c :: replaceOrg1Aux fuel (!isWordChar c) cs

def replaceOrg1 (s : List Char) : List Char :=
  replaceOrg1Aux s.length true s

/-- Attempt regex 2 at the current position: `\borganization:"` followed by
a nonempty greedy run of non-quote characters and a closing quote.
Returns (captured value, remainder). -/
def matchOrg2 (prevOk : Bool) (s : List Char) : Option (List Char × List Char) :=
  if prevOk then
    match matchChars (orgLit ++ ['"']) s with
    | none => none
    | some rest =>
      match rest.takeWhile (fun d => d ≠ '"'), rest.dropWhile (fun d => d ≠ '"') with
      | [], _ => none
      | val, '"' :: rem => some (val, rem)
      | _, _ => none
  else none

def org2Replacement (val : List Char) : List Char :=
  '(' :: orgLit ++ '"' :: val ++ '"' :: " OR publisher:".toList ++ '"' :: val ++ ['"', ')']

/-- One global-replace pass of regex 2. A regex-2 match always ends with a
quote, a non-word character, so `prevOk` is `true` after a match. -/
def replaceOrg2Aux : Nat → Bool → List Char → List Char
  | 0, _, s => s
  | fuel + 1, prevOk, s =>
    match matchOrg2 prevOk s with
    | some (val, rest) => org2Replacement val ++ replaceOrg2Aux fuel true rest
    | none =>
      match s with
      | [] => []
      | c :: cs => c :: replaceOrg2Aux fuel (!isWordChar c) cs

def replaceOrg2 (s : List Char) : List Char :=
  replaceOrg2Aux s.length true s

/-- The string pipeline of `normalizeFq` on string input: quote unquoted
organization slugs, then expand organization filters with the publisher
fallback. -/
def normalizeFqStr (s : String) : String :=
  String.mk (replaceOrg2 (replaceOrg1 s.toList))

/-- `normalizeFq`: non-strings (arrays in particular) pass through unchanged. -/
def normalizeFq (fq : JVal) : JVal :=
  match fq with
  | .str s => .str (normalizeFqStr s)
  | v => v

/-- `normalizeQ`: absent, `null`, empty and bare `*` queries become the
Solr match-all token; everything else passes through. -/
def normalizeQ (q : JVal) : JVal :=
  match q with
  | .undefined => .str "*:*"
  | .null => .str "*:*"
  | .str "" => .str "*:*"
  | .str "*" => .str "*:*"
  | v => v

/-! ## The SQL verb denylist of `datastoreSearchSql`

`/\b(drop|delete|update|insert|alter|create|grant|revoke)\b/i.test(sql)`:
a case-insensitive whole-word search, modelled by lower-casing the input
and scanning every position for one of the verbs flanked by word
boundaries. -/

def forbiddenVerbs : List (List Char) :=
  ["drop", "delete", "update", "insert", "alter", "create", "grant", "revoke"].map
    String.toList

/-- Does one verb match at the head of `s` as a whole word? `prevOk` says
the left boundary holds (start of input or preceding non-word character). -/
def wholeWordAt (w : List Char) (prevOk : Bool) (s : List Char) : Bool :=
  prevOk &&
    match matchChars w s with
    | none => false
    | some r =>
      match r with
      | [] => true
      | c :: _ => !isWordChar c

/-- Does any denylisted verb match at the head of `s`? -/
def verbAt (prevOk : Bool) (s : List Char) : Bool :=
  forbiddenVerbs.any (fun w => wholeWordAt w prevOk s)

/-- Scan every position of `s` for a whole-word verb occurrence. -/
def scanForbidden : Bool → List Char → Bool
  | _, [] => false
  | prevOk, c :: cs => verbAt prevOk (c :: cs) || scanForbidden (!isWordChar c) cs

/-- The denylist test on an SQL statement. -/
def forbiddenTest (sql : String) : Bool :=
  scanForbidden true (sql.toList.map asciiLower)

/-! ## `Date.toISOString` model (for the activity-feed default window)

Civil-calendar decomposition of a millisecond Unix timestamp, rendered as
`YYYY-MM-DDTHH:mm:ss.sssZ`. -/

/-- Proleptic Gregorian date from a day count since 1970-01-01
(Howard Hinnant's `civil_from_days`). -/
def civilFromDays (z0 : Int) : Int × Nat × Nat :=
  let z := z0 + 719468
  let era : Int := Int.fdiv z 146097
  let doe : Nat := (z - era * 146097).toNat
  let yoe : Nat := (doe - doe / 1460 + doe / 36524 - doe / 146096) / 365
  let doy : Nat := doe - (365 * yoe + yoe / 4 - yoe / 100)
  let mp : Nat := (5 * doy + 2) / 153
  let d : Nat := doy - (153 * mp + 2) / 5 + 1
  let m : Nat := if mp < 10 then mp + 3 else mp - 9
  let y : Int := (yoe : Int) + era * 400 + (if m ≤ 2 then 1 else 0)
  (y, m, d)

/-- `new Date(ms).toISOString()`. -/
def isoOf (ms : Int) : String :=
  let dayMs : Nat := (Int.emod ms 86400000).toNat
  let days : Int := Int.fdiv ms 86400000
  let (y, m, d) := civilFromDays days
  let hh := dayMs / 3600000
  let mm := dayMs % 3600000 / 60000
  let ss := dayMs % 60000 / 1000
  let mss := dayMs % 1000
  padNum 4 y.toNat ++ "-" ++ padNum 2 m ++ "-" ++ padNum 2 d ++ "T"
    ++ padNum 2 hh ++ ":" ++ padNum 2 mm ++ ":" ++ padNum 2 ss ++ "."
    ++ padNum 3 mss ++ "Z"

/-- One hour in milliseconds: `1 * 60 * 60 * 1000`. -/
def oneHourMs : Int := 1 * 60 * 60 * 1000

end OpendataMcp

namespace OpendataMcp

open JVal

/-! ## Upstream client operations (`src/api/ckan-client.js`)

Each operation builds exactly one `Request`. Arguments are the raw JS
values the function receives (`JVal`), so absent fields read as
`undefined` exactly as in the source. -/

/-- `Math.min(Math.max(0, v), CONFIG.MAX_ROWS)`. -/
def clampRows (cfg : Config) (v : Rat) : Rat :=
  min (max 0 v) cfg.MAX_ROWS

/-- The `typeof x === 'number' ? Math.min(Math.max(0, x), MAX_ROWS) : undefined`
pattern shared by the listing operations. -/
def clampedOrOmitted (cfg : Config) (v : JVal) : JVal :=
  match v with
  | .num q => .num (clampRows cfg q)
  | _ => .undefined

/-- The `typeof x === 'number' ? Math.max(0, x) : undefined` pattern for
offsets. -/
def nonnegOrOmitted (v : JVal) : JVal :=
  match v with
  | .num q => .num (max 0 q)
  | _ => .undefined

/-- The `argsOrX && typeof argsOrX === 'object' ? argsOrX[k] : fallback`
pattern used by the operations that accept an object or scalar shorthand. -/
def pickField (argsOrX : JVal) (k : String) (fallback : JVal) : JVal :=
  if argsOrX.isTruthyObject then argsOrX.jGet k else fallback

/-- The parameter mapping built by `packageSearch`. -/
def packageSearchParams (cfg : Config) (args : JVal) : List (String × JVal) :=
  let rows : JVal :=
    match args.jGet "rows" with
    | .num q => .num (clampRows cfg q)
    | _ => .num cfg.DEFAULT_ROWS
  [ ("q", normalizeQ (args.jGet "q"))
  , ("fq", normalizeFq (args.jGet "fq"))
  , ("sort", args.jGet "sort")
  , ("rows", rows)
  , ("start", args.jGet "start")
  , ("facet.field", args.jGet "facetField")
  , ("facet.limit", args.jGet "facetLimit") ]

/-- `packageSearch` (CKAN `package_search`). -/
def packageSearch (cfg : Config) (args : JVal) : Request :=
  getAction cfg "package_search" (packageSearchParams cfg args) "package_search"

/-- `packageShow` (CKAN `package_show`): id or `{id}` shorthand. -/
def packageShow (cfg : Config) (idOrName : JVal) : Request :=
  getAction cfg "package_show" [("id", pickField idOrName "id" idOrName)] "package_show"

/-- `packageList` (CKAN `package_list`). -/
def packageList (cfg : Config) (args : JVal) : Request :=
  getAction cfg "package_list"
    [ ("offset", nonnegOrOmitted (args.jGet "offset"))
    , ("limit", clampedOrOmitted cfg (args.jGet "limit"))
    , ("since", args.jGet "since") ]
    "package_list"

/-- `currentPackageListWithResources` (CKAN `current_package_list_with_resources`). -/
def currentPackageListWithResources (cfg : Config) (args : JVal) : Request :=
  getAction cfg "current_package_list_with_resources"
    [ ("offset", nonnegOrOmitted (args.jGet "offset"))
    , ("limit", clampedOrOmitted cfg (args.jGet "limit")) ]
    "current_package_list_with_resources"

/-- `packageAutocomplete` (CKAN `package_autocomplete`): `(q, limit)` or
`({q, limit})` calling conventions. -/
def packageAutocomplete (cfg : Config) (argsOrQ limit : JVal) : Request :=
  getAction cfg "package_autocomplete"
    [ ("q", pickField argsOrQ "q" argsOrQ)
    , ("limit", clampedOrOmitted cfg (pickField argsOrQ "limit" limit)) ]
    "package_autocomplete"

/-- `packageActivityList` (CKAN `package_activity_list`). -/
def packageActivityList (cfg : Config) (args : JVal) : Request :=
  getAction cfg "package_activity_list"
    [ ("id", args.jGet "id")
    , ("limit", clampedOrOmitted cfg (args.jGet "limit"))
    , ("offset", nonnegOrOmitted (args.jGet "offset")) ]
    "package_activity_list"

/-- `recentlyChangedPackagesActivityList` (CKAN
`recently_changed_packages_activity_list`). `now` is the current clock in
milliseconds (`Date.now()`); the default window is one hour back. -/
def recentlyChangedPackagesActivityList (cfg : Config) (now : Int) (args : JVal) : Request :=
  let defaultSince : JVal := .str (isoOf (now - oneHourMs))
  let sinceArg := args.jGet "since_time"
  getAction cfg "recently_changed_packages_activity_list"
    [ ("since_time", if sinceArg.truthy then sinceArg else defaultSince)
    , ("limit", clampedOrOmitted cfg (args.jGet "limit"))
    , ("offset", nonnegOrOmitted (args.jGet "offset")) ]
    "recently_changed_packages_activity_list"

/-- `organizationList` (CKAN `organization_list`). -/
def organizationList (cfg : Config) (args : JVal) : Request :=
  getAction cfg "organization_list"
    [ ("all_fields", args.jGet "all_fields")
    , ("limit", clampedOrOmitted cfg (args.jGet "limit"))
    , ("offset", args.jGet "offset") ]
    "organization_list"

/-- `organizationShow` (CKAN `organization_show`). -/
def organizationShow (cfg : Config) (id : JVal) : Request :=
  getAction cfg "organization_show" [("id", pickField id "id" id)] "organization_show"

/-- `groupList` (CKAN `group_list`). -/
def groupList (cfg : Config) (args : JVal) : Request :=
  getAction cfg "group_list"
    [ ("order_by", args.jGet "order_by")
    , ("limit", clampedOrOmitted cfg (args.jGet "limit"))
    , ("offset", args.jGet "offset")
    , ("all_fields", args.jGet "all_fields") ]
    "group_list"

/-- `groupShow` (CKAN `group_show`). -/
def groupShow (cfg : Config) (id : JVal) : Request :=
  getAction cfg "group_show" [("id", pickField id "id" id)] "group_show"

/-- `tagList` (CKAN `tag_list`). -/
def tagList (cfg : Config) (args : JVal) : Request :=
  getAction cfg "tag_list" [("query", args.jGet "query")] "tag_list"

/-- `tagAutocomplete` (CKAN `tag_autocomplete`): request-building part (the
response-shape normalization of its result is not modelled here). -/
def tagAutocomplete (cfg : Config) (argsOrQ limit : JVal) : Request :=
  getAction cfg "tag_autocomplete"
    [ ("q", pickField argsOrQ "q" argsOrQ)
    , ("limit", clampedOrOmitted cfg (pickField argsOrQ "limit" limit)) ]
    "tag_autocomplete"

/-- `licenseList` (CKAN `license_list`). -/
def licenseList (cfg : Config) : Request :=
  getAction cfg "license_list" [] "license_list"

/-- `vocabularyList` (CKAN `vocabulary_list`). -/
def vocabularyList (cfg : Config) : Request :=
  getAction cfg "vocabulary_list" [] "vocabulary_list"

/-- `vocabularyShow` (CKAN `vocabulary_show`). -/
def vocabularyShow (cfg : Config) (id : JVal) : Request :=
  getAction cfg "vocabulary_show" [("id", pickField id "id" id)] "vocabulary_show"

/-- `tagShow` (CKAN `tag_show`). -/
def tagShow (cfg : Config) (id : JVal) : Request :=
  getAction cfg "tag_show" [("id", pickField id "id" id)] "tag_show"

/-- `resourceShow` (CKAN `resource_show`). -/
def resourceShow (cfg : Config) (id : JVal) : Request :=
  getAction cfg "resource_show" [("id", pickField id "id" id)] "resource_show"

/-- `resourceViewShow` (CKAN `resource_view_show`). -/
def resourceViewShow (cfg : Config) (id : JVal) : Request :=
  getAction cfg "resource_view_show" [("id", pickField id "id" id)] "resource_view_show"

/-- `resourceViewList` (CKAN `resource_view_list`): accepts
`{resource_id}` (falling back to `{id}`) or a scalar id. -/
def resourceViewList (cfg : Config) (argsOrId : JVal) : Request :=
  let resId :=
    if argsOrId.isTruthyObject then
      if (argsOrId.jGet "resource_id").truthy then argsOrId.jGet "resource_id"
      else argsOrId.jGet "id"
    else argsOrId
  getAction cfg "resource_view_list" [("id", resId)] "resource_view_list"

/-- `statusShow` (CKAN `status_show`). -/
def statusShow (cfg : Config) : Request :=
  getAction cfg "status_show" [] "status_show"

/-- `helpShow` (CKAN `help_show`). -/
def helpShow (cfg : Config) (name : JVal) : Request :=
  getAction cfg "help_show" [("name", name)] "help_show"

/-- `datastoreInfo` (CKAN `datastore_info`). -/
def datastoreInfo (cfg : Config) (id includePrivate : JVal) : Request :=
  getAction cfg "datastore_info"
    [("id", id), ("include_private", includePrivate)] "datastore_info"

/-- `datastoreSearch` (CKAN `datastore_search`). POST is preferred when
object-valued `filters`/`q` or an explicit `fields` array is supplied, to
avoid URL-length issues; the GET path sends the same parameter mapping as
an encoded query string. -/
def datastoreSearchPayload (cfg : Config) (args : JVal) : List (String × JVal) :=
  let includeTotal := args.jGet "include_total"
  let safeLimit : Rat :=
    match args.jGet "limit" with
    | .num v => clampRows cfg v
    | _ => cfg.DEFAULT_ROWS
  [ ("resource_id", args.jGet "resource_id")
  , ("q", args.jGet "q")
  , ("filters", args.jGet "filters")
  , ("fields", args.jGet "fields")
  , ("sort", args.jGet "sort")
  , ("language", args.jGet "language")
  , ("include_total", if includeTotal.isBooleanV then includeTotal else .bool false)
  , ("limit", .num safeLimit)
  , ("offset", args.jGet "offset")
  , ("distinct", args.jGet "distinct")
  , ("plain", args.jGet "plain")
  , ("full_text", args.jGet "full_text") ]

def datastoreSearch (cfg : Config) (args : JVal) : Request :=
  let usePost :=
    (args.jGet "filters").isTruthyObject || (args.jGet "q").isTruthyObject
      || (args.jGet "fields").isArrayV
  if usePost then
    postAction cfg "datastore_search" (.obj (datastoreSearchPayload cfg args)) "datastore_search"
  else getAction cfg "datastore_search" (datastoreSearchPayload cfg args) "datastore_search"

/-- `datastoreSearchSql` (CKAN `datastore_search_sql`). The `{sql}`-object
shorthand of the source is unwrapped before this point (tool handlers pass
the validated `sql` string). An `Except.error` is a thrown `Error`: no
request is built, hence no network call. -/
def datastoreSearchSql (cfg : Config) (sql : String) : Except String Request :=
  if !cfg.ENABLE_SQL then
    .error "[CKAN datastore_search_sql] Disabled by server configuration (ENABLE_SQL=false)"
  else if forbiddenTest sql then
    .error "[CKAN datastore_search_sql] Forbidden SQL verb detected"
  else
    .ok (postAction cfg "datastore_search_sql" (.obj [("sql", .str sql)]) "datastore_search_sql")

/-- `fetchResource`: plain GET of an arbitrary URL with the default
timeout (only the request shape is modelled). -/
def fetchResource (cfg : Config) (url : String) : Request :=
  { method := .get, action := url, params := [], body := none, timeout := cfg.TIMEOUT_MS }

end OpendataMcp

namespace OpendataMcp

open JVal

/-! ## Validation layer: the zod schemas (`src/tools/*.js`)

Each tool validates its arguments with `Schema.safeParse(args || {})`.
zod object schemas check every declared field (explicit `undefined` counts
as absent), reject `null` for optional fields, and by default *strip*
unknown top-level keys from the parsed data; `.strict()` schemas reject
unknown keys instead. -/

/-- One declared field of a zod object schema. -/
structure FieldSpec where
  name : String
  optional : Bool
  check : JVal → Bool

/-- A zod object schema: its declared fields and whether it is `.strict()`. -/
structure ZObject where
  fields : List FieldSpec
  strict : Bool

/-- `z.string()`. -/
def zString (v : JVal) : Bool := v.isStringV

/-- `z.string().min(1)`. -/
def zStringMin1 : JVal → Bool
  | .str s => s != ""
  | _ => false

/-- `z.number().int().positive()`. -/
def zNumIntPos : JVal → Bool
  | .num q => q.den == 1 && decide (0 < q)
  | _ => false

/-- `z.number().int().nonnegative()`. -/
def zNumIntNonneg : JVal → Bool
  | .num q => q.den == 1 && decide (0 ≤ q)
  | _ => false

/-- `z.boolean()`. -/
def zBoolean (v : JVal) : Bool := v.isBooleanV

/-- `z.array(z.string())`. -/
def zArrayString : JVal → Bool
  | .arr xs => xs.all isStringV
  | _ => false

/-- `z.union([z.string(), z.array(z.string())])`. -/
def zStringOrArray (v : JVal) : Bool := zString v || zArrayString v

/-- `z.record(z.any())`: any plain object. -/
def zRecordAny (v : JVal) : Bool := v.isPlainObject

/-- `z.union([z.string(), z.record(z.any())])`. -/
def zStringOrRecord (v : JVal) : Bool := zString v || zRecordAny v

/-- Check the declared fields against the input, producing the first
validation issue. -/
def checkFields (v : JVal) : List FieldSpec → Except String Unit
  | [] => .ok ()
  | f :: fs =>
    if (v.jGet f.name).isUndefinedV then
      if f.optional then checkFields v fs
      else .error ("Required field missing: " ++ f.name)
    else
      if f.check (v.jGet f.name) then checkFields v fs
      else .error ("Invalid value for field " ++ f.name)

/-- Does the input object carry any key not declared in the schema? -/
def hasUnknownKey (declared : List String) (fs : List (String × JVal)) : Bool :=
  fs.any (fun kv => !declared.contains kv.1)

/-- The parsed data: declared fields only, unknown keys stripped. -/
def stripTo (fields : List FieldSpec) (v : JVal) : JVal :=
  .obj (fields.filterMap (fun f =>
    if (v.jGet f.name).isUndefinedV then none else some (f.name, v.jGet f.name)))

/-- `Schema.safeParse`: `.error` is a failed parse (with the diagnostic
message), `.ok` carries the parsed (stripped) data. -/
def zParse (s : ZObject) (v : JVal) : Except String JVal :=
  match v with
  | .obj fs =>
    match checkFields v s.fields with
    | .error m => .error m
    | .ok _ =>
      if s.strict && hasUnknownKey (s.fields.map FieldSpec.name) fs then
        .error "Unrecognized key(s) in object"
      else .ok (stripTo s.fields v)
  | _ => .error "Expected object, received other type"

/-! The schemas, one per tool (`catalog.js`, `org-taxonomy.js`,
`datastore.js`, `resources.js`, `status.js`). -/

def PackageSearchSchema : ZObject :=
  { fields :=
      [ ⟨"q", true, zString⟩
      , ⟨"fq", true, zStringOrArray⟩
      , ⟨"sort", true, zString⟩
      , ⟨"rows", true, zNumIntPos⟩
      , ⟨"start", true, zNumIntNonneg⟩
      , ⟨"facetField", true, zArrayString⟩
      , ⟨"facetLimit", true, zNumIntPos⟩ ]
    strict := false }

def PackageShowSchema : ZObject :=
  { fields := [⟨"id", false, zString⟩], strict := false }

def PackageListSchema : ZObject :=
  { fields :=
      [ ⟨"offset", true, zNumIntNonneg⟩
      , ⟨"limit", true, zNumIntPos⟩
      , ⟨"since", true, zString⟩ ]
    strict := false }

def CurrentPackageListWithResourcesSchema : ZObject :=
  { fields :=
      [ ⟨"offset", true, zNumIntNonneg⟩
      , ⟨"limit", true, zNumIntPos⟩ ]
    strict := false }

def PackageAutocompleteSchema : ZObject :=
  { fields := [⟨"q", false, zString⟩, ⟨"limit", true, zNumIntPos⟩], strict := false }

def PackageActivityListSchema : ZObject :=
  { fields :=
      [ ⟨"id", false, zString⟩
      , ⟨"limit", true, zNumIntPos⟩
      , ⟨"offset", true, zNumIntNonneg⟩ ]
    strict := false }

def RecentlyChangedPackagesActivityListSchema : ZObject :=
  { fields :=
      [ ⟨"since_time", true, zString⟩
      , ⟨"limit", true, zNumIntPos⟩
      , ⟨"offset", true, zNumIntNonneg⟩ ]
    strict := false }

def OrganizationListSchema : ZObject :=
  { fields :=
      [ ⟨"all_fields", true, zBoolean⟩
      , ⟨"limit", true, zNumIntPos⟩
      , ⟨"offset", true, zNumIntNonneg⟩ ]
    strict := false }

def OrganizationShowSchema : ZObject :=
  { fields := [⟨"id", false, zString⟩], strict := false }

def GroupListSchema : ZObject :=
  { fields :=
      [ ⟨"order_by", true, zString⟩
      , ⟨"limit", true, zNumIntPos⟩
      , ⟨"offset", true, zNumIntNonneg⟩
      , ⟨"all_fields", true, zBoolean⟩ ]
    strict := false }

def GroupShowSchema : ZObject :=
  { fields := [⟨"id", false, zString⟩], strict := false }

def TagListSchema : ZObject :=
  { fields := [⟨"query", true, zString⟩], strict := false }

def TagAutocompleteSchema : ZObject :=
  { fields := [⟨"q", false, zString⟩, ⟨"limit", true, zNumIntPos⟩], strict := false }

def LicenseListSchema : ZObject := { fields := [], strict := true }

def VocabularyListSchema : ZObject := { fields := [], strict := true }

def VocabularyShowSchema : ZObject :=
  { fields := [⟨"id", false, zString⟩], strict := false }

def TagShowSchema : ZObject :=
  { fields := [⟨"id", false, zString⟩], strict := false }

def HelpShowSchema : ZObject :=
  { fields := [⟨"name", false, zString⟩], strict := false }

def DatastoreInfoSchema : ZObject :=
  { fields := [⟨"id", false, zString⟩, ⟨"include_private", true, zBoolean⟩], strict := false }

def DatastoreSearchSchema : ZObject :=
  { fields :=
      [ ⟨"resource_id", false, zString⟩
      , ⟨"q", true, zStringOrRecord⟩
      , ⟨"filters", true, zRecordAny⟩
      , ⟨"fields", true, zArrayString⟩
      , ⟨"sort", true, zString⟩
      , ⟨"language", true, zString⟩
      , ⟨"include_total", true, zBoolean⟩
      , ⟨"limit", true, zNumIntPos⟩
      , ⟨"offset", true, zNumIntNonneg⟩
      , ⟨"distinct", true, zBoolean⟩
      , ⟨"plain", true, zBoolean⟩
      , ⟨"full_text", true, zBoolean⟩ ]
    strict := false }

def DatastoreSearchSqlSchema : ZObject :=
  { fields := [⟨"sql", false, zStringMin1⟩], strict := false }

def ResourceIdSchema : ZObject :=
  { fields := [⟨"id", false, zString⟩], strict := false }

def ResourceViewListSchema : ZObject :=
  { fields := [⟨"resource_id", false, zString⟩], strict := false }

/-! ## Tool handlers

Every handler: validate with `safeParse(args || {})`; on failure return an
error envelope without calling the upstream client; on success call the
client and wrap its JSON (or the stringified thrown error) in the
envelope. The second component of the result records the upstream
requests actually issued. -/

/-- `{ type: 'text', text }` content item. -/
def textContent (msg : String) : JVal :=
  .obj [("type", .str "text"), ("text", .str msg)]

/-- `{ isError: true, content: [{ type: 'text', text }] }`. -/
def errEnvelope (msg : String) : JVal :=
  .obj [("isError", .bool true), ("content", .arr [textContent msg])]

/-- `{ content: [{ type: 'text', text }] }`. -/
def okEnvelope (msg : String) : JVal :=
  .obj [("content", .arr [textContent msg])]

/-- The upstream HTTP layer, abstracted: a response body or a thrown,
already-mapped error message per request. -/
def Upstream : Type := Request → Except String JVal

/-- `String(e)` on a thrown `Error`. -/
def jsErrorString (m : String) : String := "Error: " ++ m

/-- The shared try/catch tail of every handler: issue the request, wrap the
response as pretty-printed JSON text, or catch and stringify the failure. -/
def handlerResult (req : Request) (up : Upstream) : JVal × List Request :=
  match up req with
  | .ok data => (okEnvelope (jsonStringify2 0 data), [req])
  | .error e => (errEnvelope (jsErrorString e), [req])

/-- `args || {}`. -/
def jsOrEmpty (args : JVal) : JVal := if args.truthy then args else .obj []

/-- The validate-then-call skeleton shared by the zod-validated handlers.
`wrap` is the tool's validation-failure message shape. -/
def mkTool (schema : ZObject) (wrap : String → String) (run : JVal → Request)
    (up : Upstream) (args : JVal) : JVal × List Request :=
  match zParse schema (jsOrEmpty args) with
  | .error m => (errEnvelope (wrap m), [])
  | .ok d => handlerResult (run d) up

/-- Extract a validated string field (`parsed.data.x`, already checked to
be a string). -/
def strD : JVal → String
  | .str s => s
  | _ => ""

def package_search_tool (cfg : Config) (up : Upstream) : JVal → JVal × List Request :=
  mkTool PackageSearchSchema (fun m => "Invalid arguments for package_search: " ++ m)
    (fun d => packageSearch cfg d) up

def package_show_tool (cfg : Config) (up : Upstream) : JVal → JVal × List Request :=
  mkTool PackageShowSchema (fun m => "Invalid arguments for package_show: " ++ m)
    (fun d => packageShow cfg (d.jGet "id")) up

def package_list_tool (cfg : Config) (up : Upstream) : JVal → JVal × List Request :=
  mkTool PackageListSchema (fun m => "Invalid arguments for package_list: " ++ m)
    (fun d => packageList cfg d) up

def current_package_list_with_resources_tool (cfg : Config) (up : Upstream) :
    JVal → JVal × List Request :=
  mkTool CurrentPackageListWithResourcesSchema
    (fun m => "Invalid arguments for current_package_list_with_resources: " ++ m)
    (fun d => currentPackageListWithResources cfg d) up

def package_autocomplete_tool (cfg : Config) (up : Upstream) : JVal → JVal × List Request :=
  mkTool PackageAutocompleteSchema (fun m => "Invalid arguments for package_autocomplete: " ++ m)
    (fun d => packageAutocomplete cfg (d.jGet "q") (d.jGet "limit")) up

def package_activity_list_tool (cfg : Config) (up : Upstream) : JVal → JVal × List Request :=
  mkTool PackageActivityListSchema (fun m => "Invalid arguments for package_activity_list: " ++ m)
    (fun d => packageActivityList cfg d) up

def recently_changed_packages_activity_list_tool (cfg : Config) (now : Int) (up : Upstream) :
    JVal → JVal × List Request :=
  mkTool RecentlyChangedPackagesActivityListSchema
    (fun m => "Invalid arguments for recently_changed_packages_activity_list: " ++ m)
    (fun d => recentlyChangedPackagesActivityList cfg now d) up

def organization_list_tool (cfg : Config) (up : Upstream) : JVal → JVal × List Request :=
  mkTool OrganizationListSchema id (fun d => organizationList cfg d) up

def organization_show_tool (cfg : Config) (up : Upstream) : JVal → JVal × List Request :=
  mkTool OrganizationShowSchema id (fun d => organizationShow cfg (d.jGet "id")) up

def group_list_tool (cfg : Config) (up : Upstream) : JVal → JVal × List Request :=
  mkTool GroupListSchema id (fun d => groupList cfg d) up

def group_show_tool (cfg : Config) (up : Upstream) : JVal → JVal × List Request :=
  mkTool GroupShowSchema id (fun d => groupShow cfg (d.jGet "id")) up

def tag_list_tool (cfg : Config) (up : Upstream) : JVal → JVal × List Request :=
  mkTool TagListSchema id (fun d => tagList cfg d) up

def tag_autocomplete_tool (cfg : Config) (up : Upstream) : JVal → JVal × List Request :=
  mkTool TagAutocompleteSchema id (fun d => tagAutocomplete cfg (d.jGet "q") (d.jGet "limit")) up

def license_list_tool (cfg : Config) (up : Upstream) : JVal → JVal × List Request :=
  mkTool LicenseListSchema id (fun _ => licenseList cfg) up

def vocabulary_list_tool (cfg : Config) (up : Upstream) : JVal → JVal × List Request :=
  mkTool VocabularyListSchema id (fun _ => vocabularyList cfg) up

def vocabulary_show_tool (cfg : Config) (up : Upstream) : JVal → JVal × List Request :=
  mkTool VocabularyShowSchema id (fun d => vocabularyShow cfg (d.jGet "id")) up

def tag_show_tool (cfg : Config) (up : Upstream) : JVal → JVal × List Request :=
  mkTool TagShowSchema id (fun d => tagShow cfg (d.jGet "id")) up

def datastore_info_tool (cfg : Config) (up : Upstream) : JVal → JVal × List Request :=
  mkTool DatastoreInfoSchema id
    (fun d => datastoreInfo cfg (d.jGet "id") (d.jGet "include_private")) up

def datastore_search_tool (cfg : Config) (up : Upstream) : JVal → JVal × List Request :=
  mkTool DatastoreSearchSchema id (fun d => datastoreSearch cfg d) up

/-- `datastore_search_sql`: the client itself may throw (SQL disabled or a
denylisted verb) before any request exists; that throw is caught by the
handler's catch and stringified, with no upstream call. -/
def datastore_search_sql_tool (cfg : Config) (up : Upstream) (args : JVal) :
    JVal × List Request :=
  match zParse DatastoreSearchSqlSchema (jsOrEmpty args) with
  | .error m => (errEnvelope m, [])
  | .ok d =>
    match datastoreSearchSql cfg (strD (d.jGet "sql")) with
    | .error e => (errEnvelope (jsErrorString e), [])
    | .ok req => handlerResult req up

def resource_show_tool (cfg : Config) (up : Upstream) : JVal → JVal × List Request :=
  mkTool ResourceIdSchema id (fun d => resourceShow cfg (d.jGet "id")) up

def resource_view_show_tool (cfg : Config) (up : Upstream) : JVal → JVal × List Request :=
  mkTool ResourceIdSchema id (fun d => resourceViewShow cfg (d.jGet "id")) up

def resource_view_list_tool (cfg : Config) (up : Upstream) : JVal → JVal × List Request :=
  mkTool ResourceViewListSchema id (fun d => resourceViewList cfg (d.jGet "resource_id")) up

/-- `status_show`: the one handler with no argument validation (its
advertised input shape declares no fields). -/
def status_show_tool (cfg : Config) (up : Upstream) (_args : JVal) : JVal × List Request :=
  handlerResult (statusShow cfg) up

def help_show_tool (cfg : Config) (up : Upstream) : JVal → JVal × List Request :=
  mkTool HelpShowSchema id (fun d => helpShow cfg (d.jGet "name")) up

/-- The flat handler map of `src/index.js`, in merge order (catalog,
org-taxonomy, datastore, resources, status). -/
def toolHandlerList (cfg : Config) (now : Int) (up : Upstream) :
    List (String × (JVal → JVal × List Request)) :=
  [ ("package_search", package_search_tool cfg up)
  , ("package_show", package_show_tool cfg up)
  , ("package_list", package_list_tool cfg up)
  , ("current_package_list_with_resources", current_package_list_with_resources_tool cfg up)
  , ("package_autocomplete", package_autocomplete_tool cfg up)
  , ("package_activity_list", package_activity_list_tool cfg up)
  , ("recently_changed_packages_activity_list",
      recently_changed_packages_activity_list_tool cfg now up)
  , ("organization_list", organization_list_tool cfg up)
  , ("organization_show", organization_show_tool cfg up)
  , ("group_list", group_list_tool cfg up)
  , ("group_show", group_show_tool cfg up)
  , ("tag_list", tag_list_tool cfg up)
  , ("tag_autocomplete", tag_autocomplete_tool cfg up)
  , ("license_list", license_list_tool cfg up)
  , ("vocabulary_list", vocabulary_list_tool cfg up)
  , ("vocabulary_show", vocabulary_show_tool cfg up)
  , ("tag_show", tag_show_tool cfg up)
  , ("datastore_info", datastore_info_tool cfg up)
  , ("datastore_search", datastore_search_tool cfg up)
  , ("datastore_search_sql", datastore_search_sql_tool cfg up)
  , ("resource_show", resource_show_tool cfg up)
  , ("resource_view_show", resource_view_show_tool cfg up)
  , ("resource_view_list", resource_view_list_tool cfg up)
  , ("status_show", status_show_tool cfg up)
  , ("help_show", help_show_tool cfg up) ]

/-- The zod schema each tool validates with (`status_show` validates
nothing). -/
def toolValidator : String → Option ZObject
  | "package_search" => some PackageSearchSchema
  | "package_show" => some PackageShowSchema
  | "package_list" => some PackageListSchema
  | "current_package_list_with_resources" => some CurrentPackageListWithResourcesSchema
  | "package_autocomplete" => some PackageAutocompleteSchema
  | "package_activity_list" => some PackageActivityListSchema
  | "recently_changed_packages_activity_list" =>
      some RecentlyChangedPackagesActivityListSchema
  | "organization_list" => some OrganizationListSchema
  | "organization_show" => some OrganizationShowSchema
  | "group_list" => some GroupListSchema
  | "group_show" => some GroupShowSchema
  | "tag_list" => some TagListSchema
  | "tag_autocomplete" => some TagAutocompleteSchema
  | "license_list" => some LicenseListSchema
  | "vocabulary_list" => some VocabularyListSchema
  | "vocabulary_show" => some VocabularyShowSchema
  | "tag_show" => some TagShowSchema
  | "datastore_info" => some DatastoreInfoSchema
  | "datastore_search" => some DatastoreSearchSchema
  | "datastore_search_sql" => some DatastoreSearchSqlSchema
  | "resource_show" => some ResourceIdSchema
  | "resource_view_show" => some ResourceIdSchema
  | "resource_view_list" => some ResourceViewListSchema
  | "help_show" => some HelpShowSchema
  | _ => none

/-! ## Dispatch core (`src/index.js`, CallTool handler)

The dispatcher is modelled over an arbitrary handler map whose handlers
may return any value or throw, since its job is precisely to defend
against misbehaving handlers. -/

/-- What a dispatched handler did: returned a value, or threw/rejected
(with the already-stringified failure). -/
inductive HandlerOutcome where
  | ok (v : JVal)
  | thrown (e : String)

/-- `req.params.arguments ?? {}` (nullish coalescing). -/
def argsOrEmptyNullish : JVal → JVal
  | .undefined => .obj []
  | .null => .obj []
  | v => v

/-- The CallTool request handler. Returns the response envelope and
whether the named handler was invoked at all. -/
def callToolDispatch (hs : String → Option (JVal → HandlerOutcome))
    (name : String) (rawArgs : JVal) : JVal × Bool :=
  let args := argsOrEmptyNullish rawArgs
  match hs name with
  | none => (errEnvelope ("Tool not found: " ++ name), false)
  | some h =>
    match h args with
    | .thrown e => (errEnvelope ("Tool \"" ++ name ++ "\" failed: " ++ e), true)
    | .ok result =>
      if !result.truthy || !(result.jGet "content").isArrayV then
        (errEnvelope ("Tool \"" ++ name ++ "\" returned invalid result"), true)
      else (result, true)

end OpendataMcp

namespace OpendataMcp

open JVal

/-! ## Helper lemmas -/

/-- First text item of an envelope's content array. -/
def envelopeText (v : JVal) : JVal :=
  match v.jGet "content" with
  | .arr (c :: _) => c.jGet "text"
  | _ => .undefined

theorem errEnvelope_isError (m : String) : (errEnvelope m).jGet "isError" = .bool true := rfl

theorem errEnvelope_content_isArray (m : String) :
    ((errEnvelope m).jGet "content").isArrayV = true := rfl

theorem errEnvelope_text (m : String) : envelopeText (errEnvelope m) = .str m := rfl

theorem string_append_ne_empty_left (a b : String) (h : a.data ≠ []) : a ++ b ≠ "" := by
  intro hcontra
  apply h
  have hd : (a ++ b).data = ([] : List Char) := by rw [hcontra]
  rw [String.data_append] at hd
  exact (List.append_eq_nil.mp hd).1

theorem lookup_keyed_cons_ne (k k' : String) {β : Type} (v : β) (t : List (String × β))
    (h : (k == k') = false) : ((k', v) :: t).lookup k = t.lookup k := by
  simp [List.lookup, h]

theorem lookup_keyed_cons_self (k : String) {β : Type} (v : β) (t : List (String × β)) :
    ((k, v) :: t).lookup k = some v := by
  simp [List.lookup]

theorem bsp_cons_keep (k : String) (v : JVal) (t : List (String × JVal))
    (h : keepParam v = true) :
    buildSearchParams ((k, v) :: t) = (k, encodeParam v) :: buildSearchParams t := by
  simp [buildSearchParams, h]

theorem bsp_cons_drop (k : String) (v : JVal) (t : List (String × JVal))
    (h : keepParam v = false) :
    buildSearchParams ((k, v) :: t) = buildSearchParams t := by
  simp [buildSearchParams, h]

/-- Skip a leading parameter with a different key, whether kept or dropped. -/
theorem lookup_bsp_cons_ne (k k' : String) (v : JVal) (t : List (String × JVal))
    (h : (k == k') = false) :
    (buildSearchParams ((k', v) :: t)).lookup k = (buildSearchParams t).lookup k := by
  by_cases hv : keepParam v
  · rw [bsp_cons_keep _ _ _ hv, lookup_keyed_cons_ne _ _ _ _ h]
  · rw [bsp_cons_drop _ _ _ (by simpa using hv)]

theorem lookup_bsp_cons_keep (k : String) (v : JVal) (t : List (String × JVal))
    (h : keepParam v = true) :
    (buildSearchParams ((k, v) :: t)).lookup k = some (encodeParam v) := by
  rw [bsp_cons_keep _ _ _ h, lookup_keyed_cons_self]

theorem lookup_bsp_cons_absent (k : String) (t : List (String × JVal)) :
    (buildSearchParams ((k, JVal.undefined) :: t)).lookup k = (buildSearchParams t).lookup k := by
  rw [bsp_cons_drop k JVal.undefined t rfl]

theorem lookup_bsp_nil (k : String) : (buildSearchParams []).lookup k = none := rfl

theorem keepParam_num (q : Rat) : keepParam (.num q) = true := rfl

theorem keepParam_str (s : String) : keepParam (.str s) = true := rfl

theorem encodeParam_num (q : Rat) : encodeParam (.num q) = .num q := rfl

theorem encodeParam_str (s : String) : encodeParam (.str s) = .str s := rfl

/-- `normalizeQ` never yields `undefined`/`null`, so the `q` parameter is
always kept. -/
theorem keepParam_normalizeQ (v : JVal) : keepParam (normalizeQ v) = true := by
  cases v <;> unfold normalizeQ <;> first | rfl | (split <;> rfl)

end OpendataMcp

namespace OpendataMcp

open JVal

/-! ## Validation-layer lemmas -/

/-- Whether the input fails one declared field's check. -/
def fieldFails (v : JVal) (f : FieldSpec) : Bool :=
  if (v.jGet f.name).isUndefinedV then !f.optional else !f.check (v.jGet f.name)

theorem checkFields_ok_iff (v : JVal) (fs : List FieldSpec) :
    checkFields v fs = .ok () ↔ ∀ f ∈ fs, fieldFails v f = false := by
  induction fs with
  | nil => simp [checkFields]
  | cons f fs ih =>
    unfold checkFields fieldFails
    by_cases hu : (v.jGet f.name).isUndefinedV <;>
      by_cases ho : f.optional <;>
      by_cases hc : f.check (v.jGet f.name) <;>
      simp [hu, ho, hc, ih, fieldFails]

theorem checkFields_error_of_fail (v : JVal) (fs : List FieldSpec) (f : FieldSpec)
    (hmem : f ∈ fs) (hfail : fieldFails v f = true) :
    ∃ m, checkFields v fs = .error m := by
  cases hc : checkFields v fs with
  | error m => exact ⟨m, rfl⟩
  | ok u =>
    cases u
    have := (checkFields_ok_iff v fs).mp hc f hmem
    rw [hfail] at this
    exact absurd this (by simp)

theorem checkFields_error_ne (v : JVal) (fs : List FieldSpec) (m : String)
    (h : checkFields v fs = .error m) : m ≠ "" := by
  induction fs with
  | nil => simp [checkFields] at h
  | cons f fs ih =>
    unfold checkFields at h
    by_cases hu : (v.jGet f.name).isUndefinedV <;>
      by_cases ho : f.optional <;>
      by_cases hc : f.check (v.jGet f.name) <;>
      simp [hu, ho, hc] at h <;>
      first
      | exact ih h
      | (rw [← h]; exact string_append_ne_empty_left _ _ (by simp))

theorem zParse_error_ne (s : ZObject) (v : JVal) (m : String)
    (h : zParse s v = .error m) : m ≠ "" := by
  unfold zParse at h
  cases v <;>
    first
    | (cases h; exact string_append_ne_empty_left "Expected" " object, received other type"
        (by simp))
    | skip
  case obj fs =>
    cases hc : checkFields (.obj fs) s.fields <;> rw [hc] at h <;> simp only [] at h
    · cases h
      exact checkFields_error_ne _ _ _ hc
    · by_cases hstrict :
        (s.strict && hasUnknownKey (s.fields.map FieldSpec.name) fs) = true
      · rw [if_pos hstrict] at h
        cases h
        exact string_append_ne_empty_left "Unrecognized" " key(s) in object" (by simp)
      · rw [if_neg hstrict] at h
        cases h

theorem zParse_error_of_checkFields (s : ZObject) (fs : List (String × JVal)) (m : String)
    (h : checkFields (.obj fs) s.fields = .error m) : zParse s (.obj fs) = .error m := by
  simp [zParse, h]

/-- A required field read as `undefined` (missing or explicitly undefined)
fails validation. -/
theorem zParse_missing_required (s : ZObject) (fs : List (String × JVal)) (f : FieldSpec)
    (hmem : f ∈ s.fields) (hreq : f.optional = false)
    (habs : (JVal.obj fs).jGet f.name = .undefined) :
    ∃ m, zParse s (.obj fs) = .error m := by
  obtain ⟨m, hm⟩ := checkFields_error_of_fail (.obj fs) s.fields f hmem
    (by unfold fieldFails; rw [habs, hreq]; rfl)
  exact ⟨m, zParse_error_of_checkFields s fs m hm⟩

/-- A present field whose value fails its declared check (wrong type or
out-of-range number) fails validation. -/
theorem zParse_bad_field (s : ZObject) (fs : List (String × JVal)) (f : FieldSpec) (w : JVal)
    (hmem : f ∈ s.fields) (hval : (JVal.obj fs).jGet f.name = w)
    (hnu : w.isUndefinedV = false) (hbad : f.check w = false) :
    ∃ m, zParse s (.obj fs) = .error m := by
  obtain ⟨m, hm⟩ := checkFields_error_of_fail (.obj fs) s.fields f hmem
    (by unfold fieldFails; rw [hval, hnu, hbad]; rfl)
  exact ⟨m, zParse_error_of_checkFields s fs m hm⟩

/-- Successful parses contain only declared keys (unknown keys stripped). -/
theorem zParse_strips (s : ZObject) (v d : JVal) (h : zParse s v = .ok d) :
    ∃ fs, d = .obj fs ∧ ∀ k w, (k, w) ∈ fs → k ∈ s.fields.map FieldSpec.name := by
  unfold zParse at h
  cases v <;> try cases h
  case obj fs0 =>
    cases hc : checkFields (.obj fs0) s.fields <;> rw [hc] at h <;> simp only [] at h
    · cases h
    · by_cases hstrict :
        (s.strict && hasUnknownKey (s.fields.map FieldSpec.name) fs0) = true
      · rw [if_pos hstrict] at h
        cases h
      · rw [if_neg hstrict] at h
        cases h
        refine ⟨_, rfl, ?_⟩
        intro k w hkw
        simp only [List.mem_filterMap] at hkw
        obtain ⟨f, hf, hfe⟩ := hkw
        split at hfe
        · cases hfe
        · cases hfe
          exact List.mem_map_of_mem FieldSpec.name hf

/-- Non-strict schemas accept objects whose declared fields validate,
whatever other keys they carry. -/
theorem zParse_nonstrict_ok (s : ZObject) (fs : List (String × JVal))
    (hns : s.strict = false) (hok : checkFields (.obj fs) s.fields = .ok ()) :
    zParse s (.obj fs) = .ok (stripTo s.fields (.obj fs)) := by
  simp [zParse, hok, hns]

/-- Strict schemas reject any undeclared key (after field checks pass). -/
theorem zParse_strict_rejects (s : ZObject) (fs : List (String × JVal))
    (hst : s.strict = true) (hok : checkFields (.obj fs) s.fields = .ok ())
    (hunk : hasUnknownKey (s.fields.map FieldSpec.name) fs = true) :
    zParse s (.obj fs) = .error "Unrecognized key(s) in object" := by
  simp [zParse, hok, hst, hunk]

end OpendataMcp

namespace OpendataMcp

open JVal

/-! ## Whole-word scanner lemmas (SQL verb denylist) -/

theorem getLast?_cons_eq {α : Type} (c : α) (l : List α) :
    (c :: l).getLast? = some (l.getLastD c) := by
  induction l generalizing c <;> simp_all [List.getLastD, List.getLast?]

/-- Left word boundary of a split `a ++ w ++ b`: start of input (where the
scanner's incoming `prevOk` flag decides) or a non-word character at the
end of `a`. -/
def leftOk (prevOk : Bool) : List Char → Prop
  | [] => prevOk = true
  | a0 :: as => isWordChar (as.getLastD a0) = false

/-- Right word boundary: end of input or a non-word character starting `b`. -/
def rightOk : List Char → Prop
  | [] => True
  | c :: _ => isWordChar c = false

/-- `containsForbiddenVerb` is the specification-level reading of the
denylist: some forbidden verb occurs in the lower-cased statement as a
whole word (flanked by word boundaries). -/
def containsForbiddenVerb (sql : String) : Prop :=
  ∃ a w b, w ∈ forbiddenVerbs ∧ sql.toList.map asciiLower = a ++ w ++ b ∧
    leftOk true a ∧ rightOk b

theorem forbiddenVerbs_ne_nil : ∀ w ∈ forbiddenVerbs, w ≠ [] := by decide

theorem matchChars_eq_some_iff (p : List Char) : ∀ (s r : List Char),
    matchChars p s = some r ↔ s = p ++ r := by
  induction p with
  | nil => intro s r; simp [matchChars]
  | cons p ps ih =>
    intro s r
    cases s with
    | nil => simp [matchChars]
    | cons c cs =>
      by_cases hp : p = c
      · subst hp
        simp [matchChars, ih]
      · simp [matchChars, hp]
        intro hc
        exact absurd hc.symm hp

theorem wholeWordAt_eq_true_iff (w : List Char) (prevOk : Bool) (s : List Char) :
    wholeWordAt w prevOk s = true ↔
      prevOk = true ∧ ∃ r, s = w ++ r ∧ rightOk r := by
  unfold wholeWordAt
  rw [Bool.and_eq_true]
  constructor
  · rintro ⟨hp, hx⟩
    cases hm : matchChars w s with
    | none => rw [hm] at hx; cases hx
    | some r =>
      rw [hm] at hx
      refine ⟨hp, r, (matchChars_eq_some_iff w s r).mp hm, ?_⟩
      cases r with
      | nil => exact trivial
      | cons c cs =>
        simp only [] at hx
        unfold rightOk
        simpa using hx
  · rintro ⟨hp, r, hr, hro⟩
    refine ⟨hp, ?_⟩
    rw [(matchChars_eq_some_iff w s r).mpr hr]
    cases r with
    | nil => rfl
    | cons c cs =>
      unfold rightOk at hro
      simp [hro]

theorem scanForbidden_eq_true_iff : ∀ (l : List Char) (prevOk : Bool),
    scanForbidden prevOk l = true ↔
      ∃ a w b, w ∈ forbiddenVerbs ∧ l = a ++ w ++ b ∧ leftOk prevOk a ∧ rightOk b := by
  intro l
  induction l with
  | nil =>
    intro prevOk
    simp only [scanForbidden]
    constructor
    · intro h
      cases h
    · rintro ⟨a, w, b, hw, habc, -, -⟩
      have hne := forbiddenVerbs_ne_nil w hw
      rcases List.append_eq_nil.mp habc.symm with ⟨haw, -⟩
      rcases List.append_eq_nil.mp haw with ⟨-, hww⟩
      exact absurd hww hne
  | cons c cs ih =>
    intro prevOk
    simp only [scanForbidden, Bool.or_eq_true]
    constructor
    · rintro (hverb | hscan)
      · unfold verbAt at hverb
        rw [List.any_eq_true] at hverb
        obtain ⟨w, hw, hWW⟩ := hverb
        obtain ⟨hp, r, hr, hro⟩ := (wholeWordAt_eq_true_iff w prevOk (c :: cs)).mp hWW
        refine ⟨[], w, r, hw, by simpa using hr, ?_, hro⟩
        unfold leftOk
        exact hp
      · obtain ⟨a, w, b, hw, habc, hl, hr⟩ := (ih (!isWordChar c)).mp hscan
        refine ⟨c :: a, w, b, hw, by simp [habc], ?_, hr⟩
        cases a with
        | nil =>
          unfold leftOk at hl ⊢
          simpa using hl
        | cons a0 as =>
          unfold leftOk at hl ⊢
          simp only [] at hl ⊢
          rw [List.getLastD_cons]
          exact hl
    · rintro ⟨a, w, b, hw, habc, hl, hr⟩
      cases a with
      | nil =>
        left
        unfold verbAt
        rw [List.any_eq_true]
        refine ⟨w, hw, ?_⟩
        rw [wholeWordAt_eq_true_iff w prevOk (c :: cs)]
        unfold leftOk at hl
        exact ⟨hl, b, by simpa using habc, hr⟩
      | cons a0 as =>
        right
        simp only [List.cons_append] at habc
        injection habc with hca hrest
        subst hca
        apply (ih (!isWordChar c)).mpr
        refine ⟨as, w, b, hw, hrest, ?_, hr⟩
        cases as with
        | nil =>
          unfold leftOk at hl ⊢
          simpa using hl
        | cons a1 as1 =>
          unfold leftOk at hl ⊢
          simp only [] at hl ⊢
          rw [List.getLastD_cons] at hl
          exact hl

/-- The implementation's denylist test agrees with the specification-level
whole-word, case-insensitive verb search. -/
theorem forbiddenTest_iff_containsForbiddenVerb (sql : String) :
    forbiddenTest sql = true ↔ containsForbiddenVerb sql :=
  scanForbidden_eq_true_iff (sql.toList.map asciiLower) true

end OpendataMcp

namespace OpendataMcp

open JVal

/-! ## fq-normalization lemmas (the two organization-filter regexes) -/

theorem matchChars_append (p : List Char) : ∀ r, matchChars p (p ++ r) = some r := by
  induction p with
  | nil => intro r; rfl
  | cons c cs ih => intro r; simp [matchChars, ih]

theorem takeWhile_all_of (p : Char → Bool) : ∀ (l : List Char), (∀ c ∈ l, p c = true) →
    l.takeWhile p = l ∧ l.dropWhile p = [] := by
  intro l
  induction l with
  | nil => intro _; exact ⟨rfl, rfl⟩
  | cons c cs ih =>
    intro hall
    have hc := hall c (List.mem_cons_self c cs)
    have ⟨h1, h2⟩ := ih (fun d hd => hall d (List.mem_cons_of_mem c hd))
    simp [List.takeWhile, List.dropWhile, hc, h1, h2]

theorem takeWhile_append_stop (p : Char → Bool) : ∀ (l : List Char) (d : Char) (t : List Char),
    (∀ c ∈ l, p c = true) → p d = false →
    (l ++ d :: t).takeWhile p = l ∧ (l ++ d :: t).dropWhile p = d :: t := by
  intro l
  induction l with
  | nil => intro d t _ hd; simp [List.takeWhile, List.dropWhile, hd]
  | cons c cs ih =>
    intro d t hall hd
    have hc := hall c (List.mem_cons_self c cs)
    have ⟨h1, h2⟩ := ih d t (fun e he => hall e (List.mem_cons_of_mem c he)) hd
    simp [List.takeWhile, List.dropWhile, hc, h1, h2]

theorem replaceOrg1Aux_nil (fuel : Nat) (b : Bool) : replaceOrg1Aux fuel b [] = [] := by
  cases fuel with
  | zero => rfl
  | succ f => cases b <;> rfl

theorem replaceOrg2Aux_nil (fuel : Nat) (b : Bool) : replaceOrg2Aux fuel b [] = [] := by
  cases fuel with
  | zero => rfl
  | succ f => cases b <;> rfl

theorem replaceOrg1Aux_cons_of_none (fuel : Nat) (b : Bool) (c : Char) (cs : List Char)
    (h : matchOrg1 b (c :: cs) = none) :
    replaceOrg1Aux (fuel + 1) b (c :: cs) = c :: replaceOrg1Aux fuel (!isWordChar c) cs := by
  simp [replaceOrg1Aux, h]

/-- The unquoted-slug match: at the head of `organization:<slug>` with a
left boundary, regex 1 captures the whole (quote-free, space-free) slug. -/
theorem matchOrg1_at_head (slug : List Char) (h1 : slug ≠ [])
    (h2 : ∀ c ∈ slug, isSpaceChar c = false ∧ c ≠ '"') :
    matchOrg1 true (orgLit ++ slug) = some (slug, []) := by
  unfold matchOrg1
  rw [if_pos rfl, matchChars_append]
  cases slug with
  | nil => exact absurd rfl h1
  | cons c cs =>
    have hc := h2 c (List.mem_cons_self c cs)
    have hall : ∀ d ∈ cs, (!isSpaceChar d) = true := by
      intro d hd
      have := (h2 d (List.mem_cons_of_mem c hd)).1
      simp [this]
    have ⟨ht, hdp⟩ := takeWhile_all_of (fun d => !isSpaceChar d) cs hall
    simp only []
    rw [if_neg (by simp [hc.1, hc.2])]
    rw [ht, hdp]

/-- Regex 1 quotes an unquoted organization slug covering the whole rest of
the filter string. -/
theorem replaceOrg1_unquoted (slug : List Char) (h1 : slug ≠ [])
    (h2 : ∀ c ∈ slug, isSpaceChar c = false ∧ c ≠ '"') :
    replaceOrg1 (orgLit ++ slug) = orgLit ++ '"' :: (slug ++ ['"']) := by
  unfold replaceOrg1
  have hlen : (orgLit ++ slug).length = slug.length + 13 := by
    rw [List.length_append]
    rw [show orgLit.length = 13 from rfl]
    omega
  rw [hlen]
  rw [show slug.length + 13 = (slug.length + 12) + 1 from rfl]
  unfold replaceOrg1Aux
  rw [matchOrg1_at_head slug h1 h2]
  simp only []
  rw [replaceOrg1Aux_nil, List.append_nil]

theorem matchOrg1_false (s : List Char) : matchOrg1 false s = none := rfl

/-- No regex-1 match can start inside a colon-free stretch. -/
theorem replaceOrg1Aux_no_colon : ∀ (l : List Char) (fuel : Nat) (b : Bool),
    ':' ∉ l → replaceOrg1Aux fuel b l = l := by
  intro l
  induction l with
  | nil => intro fuel b _; exact replaceOrg1Aux_nil fuel b
  | cons c cs ih =>
    intro fuel b hnc
    cases fuel with
    | zero => rfl
    | succ f =>
      have hnone : matchOrg1 b (c :: cs) = none := by
        cases b with
        | false => rfl
        | true =>
          unfold matchOrg1
          rw [if_pos rfl]
          cases hm : matchChars orgLit (c :: cs) with
          | none => rfl
          | some rest =>
            have := (matchChars_eq_some_iff orgLit (c :: cs) rest).mp hm
            have hmem : ':' ∈ c :: cs := by
              rw [this]
              exact List.mem_append_left rest (by decide)
            exact absurd hmem hnc
      rw [replaceOrg1Aux_cons_of_none f b c cs hnone]
      rw [ih f (!isWordChar c) (fun hmem => hnc (List.mem_cons_of_mem c hmem))]

/-- Inside a run of word characters no regex-1 match starts (the `\b` fails
throughout), so the scanner copies the run verbatim. -/
theorem replaceOrg1Aux_wordrun : ∀ (u : List Char), (∀ c ∈ u, isWordChar c = true) →
    ∀ (fuel : Nat) (rest : List Char), u.length ≤ fuel →
    replaceOrg1Aux fuel false (u ++ rest) =
      u ++ replaceOrg1Aux (fuel - u.length) false rest := by
  intro u
  induction u with
  | nil => intro _ fuel rest _; simp
  | cons c cs ih =>
    intro hall fuel rest hle
    cases fuel with
    | zero => simp at hle
    | succ f =>
      rw [List.cons_append, replaceOrg1Aux_cons_of_none f false c _ (matchOrg1_false _)]
      rw [hall c (List.mem_cons_self c cs), Bool.not_true]
      rw [ih (fun d hd => hall d (List.mem_cons_of_mem c hd)) f rest (by simpa using hle)]
      rw [show (f + 1) - (c :: cs).length = f - cs.length from by simp]
      simp

/-- Regex 1 leaves an already-quoted organization filter unchanged: the
leading quote fails the `[^"\s]` guard at the head, `\b` fails inside the
word `organization`, and a colon-free quoted slug admits no later match. -/
theorem replaceOrg1_quoted (slug : List Char) (hnc : ':' ∉ slug) :
    replaceOrg1 (orgLit ++ '"' :: (slug ++ ['"'])) = orgLit ++ '"' :: (slug ++ ['"']) := by
  unfold replaceOrg1
  have hlen : (orgLit ++ '"' :: (slug ++ ['"'])).length = slug.length + 15 := by
    rw [List.length_append]
    rw [show orgLit.length = 13 from rfl]
    simp only [List.length_cons, List.length_append, List.length_nil]
    omega
  rw [hlen]
  have hA : matchOrg1 true ('o' :: ("rganization".toList ++ ':' :: '"' :: (slug ++ ['"'])))
      = none := by
    show matchOrg1 true (orgLit ++ '"' :: (slug ++ ['"'])) = none
    unfold matchOrg1
    rw [if_pos rfl, matchChars_append]
    simp
  show replaceOrg1Aux (slug.length + 15) true
      ('o' :: ("rganization".toList ++ ':' :: '"' :: (slug ++ ['"']))) =
    orgLit ++ '"' :: (slug ++ ['"'])
  rw [show slug.length + 15 = (slug.length + 14) + 1 from rfl]
  rw [replaceOrg1Aux_cons_of_none (slug.length + 14) true 'o'
    ("rganization".toList ++ ':' :: '"' :: (slug ++ ['"'])) hA]
  rw [show (!isWordChar 'o') = false from rfl]
  rw [replaceOrg1Aux_wordrun "rganization".toList (by decide) (slug.length + 14) _
    (by rw [show ("rganization".toList).length = 11 from rfl]; omega)]
  rw [show slug.length + 14 - ("rganization".toList).length = (slug.length + 2) + 1 from by
    rw [show ("rganization".toList).length = 11 from rfl]; omega]
  rw [replaceOrg1Aux_cons_of_none (slug.length + 2) false ':' _ (matchOrg1_false _)]
  rw [show (!isWordChar ':') = true from rfl]
  rw [show slug.length + 2 = (slug.length + 1) + 1 from rfl]
  rw [replaceOrg1Aux_cons_of_none (slug.length + 1) true '"' _ rfl]
  rw [show (!isWordChar '"') = true from rfl]
  rw [replaceOrg1Aux_no_colon (slug ++ ['"']) (slug.length + 1) true
    (by intro hmem; rcases List.mem_append.mp hmem with h | h; exact hnc h; simp at h)]
  rfl

/-- The regex-2 match at the head of `organization:"<slug>"`: captures the
quote-free slug and consumes the closing quote. -/
theorem matchOrg2_at_head (slug : List Char) (h1 : slug ≠ [])
    (hq : ∀ c ∈ slug, c ≠ '"') :
    matchOrg2 true (orgLit ++ '"' :: (slug ++ ['"'])) = some (slug, []) := by
  unfold matchOrg2
  rw [if_pos rfl]
  rw [show orgLit ++ '"' :: (slug ++ ['"']) = (orgLit ++ ['"']) ++ (slug ++ ['"']) from by
    simp]
  rw [matchChars_append]
  simp only []
  have hall : ∀ c ∈ slug, (decide (c ≠ '"')) = true := by
    intro c hc
    simpa using hq c hc
  have ⟨ht, hdp⟩ :=
    takeWhile_append_stop (fun d => decide (d ≠ '"')) slug '"' [] hall (by simp)
  rw [ht, hdp]
  cases slug with
  | nil => exact absurd rfl h1
  | cons c cs => rfl

/-- Regex 2 expands a fully-quoted organization filter into the
organization-or-publisher disjunction. -/
theorem replaceOrg2_quoted (slug : List Char) (h1 : slug ≠ [])
    (hq : ∀ c ∈ slug, c ≠ '"') :
    replaceOrg2 (orgLit ++ '"' :: (slug ++ ['"'])) = org2Replacement slug := by
  unfold replaceOrg2
  have hlen : (orgLit ++ '"' :: (slug ++ ['"'])).length = slug.length + 15 := by
    rw [List.length_append]
    rw [show orgLit.length = 13 from rfl]
    simp only [List.length_cons, List.length_append, List.length_nil]
    omega
  rw [hlen]
  rw [show slug.length + 15 = (slug.length + 14) + 1 from rfl]
  unfold replaceOrg2Aux
  rw [matchOrg2_at_head slug h1 hq]
  simp only []
  rw [replaceOrg2Aux_nil, List.append_nil]

end OpendataMcp

namespace OpendataMcp

open JVal

/-- A well-formed organization slug for the filter-normalization claim:
nonempty, and free of whitespace, quotes and colons (real catalog slugs
are hyphenated lower-case words). -/
def goodSlug (s : String) : Prop :=
  s.data ≠ [] ∧ ∀ c ∈ s.data, isSpaceChar c = false ∧ c ≠ '"' ∧ c ≠ ':'

/-- An unquoted `organization:<slug>` filter normalizes to the quoted,
publisher-expanded disjunction. -/
theorem normalizeFqStr_unquoted (slug : String) (h : goodSlug slug) :
    normalizeFqStr ("organization:" ++ slug) =
      "(organization:\"" ++ slug ++ "\" OR publisher:\"" ++ slug ++ "\")" := by
  obtain ⟨h1, h2⟩ := h
  unfold normalizeFqStr
  have hdata : ("organization:" ++ slug).toList = orgLit ++ slug.data :=
    String.data_append _ _
  rw [hdata]
  rw [replaceOrg1_unquoted slug.data h1 (fun c hc => ⟨(h2 c hc).1, (h2 c hc).2.1⟩)]
  rw [replaceOrg2_quoted slug.data h1 (fun c hc => (h2 c hc).2.1)]
  apply String.ext
  show org2Replacement slug.data =
    ("(organization:\"" ++ slug ++ "\" OR publisher:\"" ++ slug ++ "\")").data
  rw [String.data_append, String.data_append, String.data_append, String.data_append]
  unfold org2Replacement
  simp only [List.append_assoc, List.cons_append]
  rfl

/-- An already-quoted `organization:"<slug>"` filter is not double-quoted:
it normalizes to exactly the same disjunction. -/
theorem normalizeFqStr_quoted (slug : String) (h : goodSlug slug) :
    normalizeFqStr ("organization:\"" ++ slug ++ "\"") =
      "(organization:\"" ++ slug ++ "\" OR publisher:\"" ++ slug ++ "\")" := by
  obtain ⟨h1, h2⟩ := h
  unfold normalizeFqStr
  have hdata : ("organization:\"" ++ slug ++ "\"").toList
      = orgLit ++ '"' :: (slug.data ++ ['"']) := by
    show ("organization:\"" ++ slug ++ "\"").data = _
    rw [String.data_append, String.data_append]
    rfl
  rw [hdata]
  rw [replaceOrg1_quoted slug.data (fun hc => (h2 ':' hc).2.2 rfl)]
  rw [replaceOrg2_quoted slug.data h1 (fun c hc => (h2 c hc).2.1)]
  apply String.ext
  show org2Replacement slug.data =
    ("(organization:\"" ++ slug ++ "\" OR publisher:\"" ++ slug ++ "\")").data
  rw [String.data_append, String.data_append, String.data_append, String.data_append]
  unfold org2Replacement
  simp only [List.append_assoc, List.cons_append]
  rfl

end OpendataMcp

namespace OpendataMcp

open JVal

/-! ## Claim theorems -/

/-- A trivially-succeeding upstream oracle for concrete witnesses. -/
def upstream0 : Upstream := fun _ => .ok .null

/-- C2: every CallTool response of the Dispatch Core is a well-formed
Result Envelope (its `content` is an array); an unknown tool name yields
an error envelope naming the tool with no handler invocation; a handler
result lacking a `content` array is replaced by the generic
"returned invalid result" error envelope; and a handler that throws is
caught and converted to an error envelope with the stringified failure. -/
theorem c2_dispatch_core_envelope (hs : String → Option (JVal → HandlerOutcome))
    (name : String) (rawArgs : JVal) :
    ((callToolDispatch hs name rawArgs).1.jGet "content").isArrayV = true ∧
    (hs name = none →
      callToolDispatch hs name rawArgs = (errEnvelope ("Tool not found: " ++ name), false)) ∧
    (∀ h res, hs name = some h → h (argsOrEmptyNullish rawArgs) = .ok res →
      (res.jGet "content").isArrayV = false →
      callToolDispatch hs name rawArgs
        = (errEnvelope ("Tool \"" ++ name ++ "\" returned invalid result"), true)) ∧
    (∀ h e, hs name = some h → h (argsOrEmptyNullish rawArgs) = .thrown e →
      callToolDispatch hs name rawArgs
        = (errEnvelope ("Tool \"" ++ name ++ "\" failed: " ++ e), true)) := by
  refine ⟨?_, ?_, ?_, ?_⟩
  · cases hn : hs name with
    | none =>
      simp [callToolDispatch, hn]
      exact errEnvelope_content_isArray _
    | some h =>
      cases ho : h (argsOrEmptyNullish rawArgs) with
      | thrown e =>
        simp [callToolDispatch, hn, ho]
        exact errEnvelope_content_isArray _
      | ok res =>
        by_cases hc : (!res.truthy || !(res.jGet "content").isArrayV) = true
        · simp [callToolDispatch, hn, ho, hc]
          exact errEnvelope_content_isArray _
        · simp only [Bool.or_eq_true, Bool.not_eq_true', not_or] at hc
          simp [callToolDispatch, hn, ho, hc.1, hc.2]
  · intro hn
    simp [callToolDispatch, hn]
  · intro h res hn ho hbad
    simp [callToolDispatch, hn, ho, hbad]
  · intro h e hn ho
    simp [callToolDispatch, hn, ho]

/-- A concrete handler map exercising every branch of the dispatcher. -/
def c2SampleHandlers : String → Option (JVal → HandlerOutcome) := fun n =>
  if n = "good" then some (fun _ => .ok (okEnvelope "hi"))
  else if n = "bad" then some (fun _ => .ok (.num 5))
  else if n = "boom" then some (fun _ => .thrown "Error: x")
  else none

theorem c2_dispatch_core_envelope_witness :
    callToolDispatch c2SampleHandlers "nope" (.obj [])
      = (errEnvelope ("Tool not found: " ++ "nope"), false) ∧
    callToolDispatch c2SampleHandlers "bad" (.obj [])
      = (errEnvelope ("Tool \"" ++ "bad" ++ "\" returned invalid result"), true) ∧
    callToolDispatch c2SampleHandlers "boom" (.obj [])
      = (errEnvelope ("Tool \"" ++ "boom" ++ "\" failed: " ++ "Error: x"), true) ∧
    ((callToolDispatch c2SampleHandlers "good" (.obj [])).1.jGet "content").isArrayV
      = true := by
  refine ⟨?_, ?_, ?_, ?_⟩
  · exact (c2_dispatch_core_envelope c2SampleHandlers "nope" (.obj [])).2.1 rfl
  · exact (c2_dispatch_core_envelope c2SampleHandlers "bad" (.obj [])).2.2.1
      (fun _ => .ok (.num 5)) (.num 5) rfl rfl rfl
  · exact (c2_dispatch_core_envelope c2SampleHandlers "boom" (.obj [])).2.2.2
      (fun _ => .thrown "Error: x") "Error: x" rfl rfl
  · exact (c2_dispatch_core_envelope c2SampleHandlers "good" (.obj [])).1

/-- C3: the SQL passthrough fails before any request is built when the
feature flag is off; with the flag on, a statement matching the
denylist regex fails before any request is built, and any other statement
is sent as a POST to the `datastore_search_sql` endpoint. The denylist
test itself agrees with "contains one of drop, delete, update, insert,
alter, create, grant, revoke as a whole word, in any letter case". -/
theorem c3_sql_guard (cfg : Config) (sql : String) :
    (cfg.ENABLE_SQL = false → datastoreSearchSql cfg sql =
      .error "[CKAN datastore_search_sql] Disabled by server configuration (ENABLE_SQL=false)") ∧
    (cfg.ENABLE_SQL = true → forbiddenTest sql = true →
      datastoreSearchSql cfg sql =
        .error "[CKAN datastore_search_sql] Forbidden SQL verb detected") ∧
    (cfg.ENABLE_SQL = true → forbiddenTest sql = false →
      datastoreSearchSql cfg sql =
        .ok (postAction cfg "datastore_search_sql" (.obj [("sql", .str sql)])
          "datastore_search_sql")) ∧
    (forbiddenTest sql = true ↔ containsForbiddenVerb sql) := by
  refine ⟨?_, ?_, ?_, forbiddenTest_iff_containsForbiddenVerb sql⟩
  · intro hoff
    simp [datastoreSearchSql, hoff]
  · intro hon hverb
    simp [datastoreSearchSql, hon, hverb]
  · intro hon hclean
    simp [datastoreSearchSql, hon, hclean]

/-- The default configuration with the SQL feature enabled. -/
def sqlOnConfig : Config :=
  { ENABLE_SQL := true, TIMEOUT_MS := 15000, MAX_ROWS := 1000, DEFAULT_ROWS := 25 }

theorem c3_sql_guard_witness :
    datastoreSearchSql defaultConfig "SELECT * FROM resource LIMIT 5" =
      .error "[CKAN datastore_search_sql] Disabled by server configuration (ENABLE_SQL=false)" ∧
    datastoreSearchSql sqlOnConfig "DROP TABLE x" =
      .error "[CKAN datastore_search_sql] Forbidden SQL verb detected" ∧
    datastoreSearchSql sqlOnConfig "delete from t" =
      .error "[CKAN datastore_search_sql] Forbidden SQL verb detected" ∧
    datastoreSearchSql sqlOnConfig "Insert into t values (1)" =
      .error "[CKAN datastore_search_sql] Forbidden SQL verb detected" ∧
    datastoreSearchSql sqlOnConfig "SELECT * FROM resource LIMIT 5" =
      .ok (postAction sqlOnConfig "datastore_search_sql"
        (.obj [("sql", .str "SELECT * FROM resource LIMIT 5")]) "datastore_search_sql") := by
  refine ⟨?_, ?_, ?_, ?_, ?_⟩
  · exact (c3_sql_guard defaultConfig "SELECT * FROM resource LIMIT 5").1 rfl
  · exact (c3_sql_guard sqlOnConfig "DROP TABLE x").2.1 rfl (by decide)
  · exact (c3_sql_guard sqlOnConfig "delete from t").2.1 rfl (by decide)
  · exact (c3_sql_guard sqlOnConfig "Insert into t values (1)").2.1 rfl (by decide)
  · exact (c3_sql_guard sqlOnConfig "SELECT * FROM resource LIMIT 5").2.2.1 rfl (by decide)

end OpendataMcp

namespace OpendataMcp

open JVal

/-! ### packageSearch parameter lookups -/

theorem packageSearch_params (cfg : Config) (args : JVal) :
    (packageSearch cfg args).params = buildSearchParams (packageSearchParams cfg args) := rfl

theorem packageSearch_lookup_q (cfg : Config) (args : JVal) :
    (packageSearch cfg args).params.lookup "q"
      = some (encodeParam (normalizeQ (args.jGet "q"))) := by
  rw [packageSearch_params]
  simp only [packageSearchParams]
  exact lookup_bsp_cons_keep _ _ _ (keepParam_normalizeQ _)

theorem packageSearch_lookup_fq_str (cfg : Config) (args : JVal) (s : String)
    (h : args.jGet "fq" = .str s) :
    (packageSearch cfg args).params.lookup "fq" = some (.str (normalizeFqStr s)) := by
  rw [packageSearch_params]
  simp only [packageSearchParams, h]
  rw [lookup_bsp_cons_ne "fq" "q" _ _ (by decide)]
  rw [show normalizeFq (.str s) = .str (normalizeFqStr s) from rfl]
  exact lookup_bsp_cons_keep _ _ _ (keepParam_str _)

theorem packageSearch_lookup_fq_arr (cfg : Config) (args : JVal) (xs : List JVal)
    (h : args.jGet "fq" = .arr xs) :
    (packageSearch cfg args).params.lookup "fq"
      = some (.str (jsonStringify (.arr xs))) := by
  rw [packageSearch_params]
  simp only [packageSearchParams, h]
  rw [lookup_bsp_cons_ne "fq" "q" _ _ (by decide)]
  rw [show normalizeFq (.arr xs) = .arr xs from rfl]
  exact lookup_bsp_cons_keep "fq" (.arr xs) _ rfl

theorem packageSearch_lookup_rows_num (cfg : Config) (args : JVal) (v : Rat)
    (h : args.jGet "rows" = .num v) :
    (packageSearch cfg args).params.lookup "rows" = some (.num (clampRows cfg v)) := by
  rw [packageSearch_params]
  simp only [packageSearchParams, h]
  rw [lookup_bsp_cons_ne "rows" "q" _ _ (by decide)]
  rw [lookup_bsp_cons_ne "rows" "fq" _ _ (by decide)]
  rw [lookup_bsp_cons_ne "rows" "sort" _ _ (by decide)]
  exact lookup_bsp_cons_keep "rows" (.num (clampRows cfg v)) _ rfl

theorem packageSearch_lookup_rows_absent (cfg : Config) (args : JVal)
    (h : args.jGet "rows" = .undefined) :
    (packageSearch cfg args).params.lookup "rows" = some (.num cfg.DEFAULT_ROWS) := by
  rw [packageSearch_params]
  simp only [packageSearchParams, h]
  rw [lookup_bsp_cons_ne "rows" "q" _ _ (by decide)]
  rw [lookup_bsp_cons_ne "rows" "fq" _ _ (by decide)]
  rw [lookup_bsp_cons_ne "rows" "sort" _ _ (by decide)]
  exact lookup_bsp_cons_keep "rows" (.num cfg.DEFAULT_ROWS) _ rfl

end OpendataMcp

namespace OpendataMcp

open JVal

/-- C7: in the dataset-search operation the query is normalized — absent
(undefined or null), empty-string, and bare `*` inputs become the Solr
match-all token `*:*` in the outgoing request, and every other non-empty
string passes through unchanged. -/
theorem c7_query_normalization (cfg : Config) (args : JVal) (s : String) :
    normalizeQ .undefined = .str "*:*" ∧
    normalizeQ .null = .str "*:*" ∧
    normalizeQ (.str "") = .str "*:*" ∧
    normalizeQ (.str "*") = .str "*:*" ∧
    (s ≠ "" → s ≠ "*" → normalizeQ (.str s) = .str s) ∧
    (packageSearch cfg args).params.lookup "q"
      = some (encodeParam (normalizeQ (args.jGet "q"))) ∧
    (args.jGet "q" = .undefined →
      (packageSearch cfg args).params.lookup "q" = some (.str "*:*")) ∧
    (∀ t : String, t ≠ "" → t ≠ "*" → args.jGet "q" = .str t →
      (packageSearch cfg args).params.lookup "q" = some (.str t)) := by
  refine ⟨rfl, rfl, rfl, rfl, ?_, packageSearch_lookup_q cfg args, ?_, ?_⟩
  · intro h1 h2
    unfold normalizeQ
    split <;> simp_all
  · intro h
    rw [packageSearch_lookup_q cfg args, h]
    rfl
  · intro t h1 h2 hq
    rw [packageSearch_lookup_q cfg args, hq]
    have : normalizeQ (.str t) = .str t := by
      unfold normalizeQ
      split <;> simp_all
    rw [this]
    rfl

theorem c7_query_normalization_witness :
    ("water" : String) ≠ "" ∧
    (packageSearch defaultConfig (.obj [("q", .str "water")])).params.lookup "q"
      = some (.str "water") ∧
    (packageSearch defaultConfig (.obj [])).params.lookup "q" = some (.str "*:*") ∧
    (packageSearch defaultConfig (.obj [("q", .str "*")])).params.lookup "q"
      = some (.str "*:*") := by
  refine ⟨by decide, ?_, ?_, ?_⟩
  · exact (c7_query_normalization defaultConfig (.obj [("q", .str "water")]) "water").2.2.2.2.2.2.2
      "water" (by decide) (by decide) rfl
  · exact (c7_query_normalization defaultConfig (.obj []) "x").2.2.2.2.2.2.1 rfl
  · rw [(c7_query_normalization defaultConfig (.obj [("q", .str "*")]) "x").2.2.2.2.2.1]
    rfl

/-- C10: an array-valued `fq` bypasses filter normalization entirely — the
array is placed into the request as the JSON serialization of the original
elements, with no quoting or publisher expansion applied. -/
theorem c10_array_fq_passthrough (cfg : Config) (args : JVal) (xs : List JVal)
    (h : args.jGet "fq" = .arr xs) :
    normalizeFq (.arr xs) = .arr xs ∧
    (packageSearch cfg args).params.lookup "fq"
      = some (.str (jsonStringify (.arr xs))) :=
  ⟨rfl, packageSearch_lookup_fq_arr cfg args xs h⟩

theorem c10_array_fq_passthrough_witness :
    ((packageSearch defaultConfig
        (.obj [("fq", .arr [.str "organization:foo-bar", .str "language:de"])])).params.lookup
        "fq")
      = some (.str "[\"organization:foo-bar\",\"language:de\"]") := by
  rw [(c10_array_fq_passthrough defaultConfig
    (.obj [("fq", .arr [.str "organization:foo-bar", .str "language:de"])])
    [.str "organization:foo-bar", .str "language:de"] rfl).2]
  rfl

/-- C6: a string-valued `fq` reaches the request after `normalizeFq`; an
unquoted organization token `organization:<slug>` is rewritten to the
quoted, publisher-expanded disjunction, and an already-quoted token is not
double-quoted (it yields exactly the same single-quoted expansion). -/
theorem c6_fq_normalization (cfg : Config) (args : JVal) (s : String) (slug : String) :
    (args.jGet "fq" = .str s →
      (packageSearch cfg args).params.lookup "fq" = some (.str (normalizeFqStr s))) ∧
    (goodSlug slug →
      normalizeFqStr ("organization:" ++ slug)
        = "(organization:\"" ++ slug ++ "\" OR publisher:\"" ++ slug ++ "\")") ∧
    (goodSlug slug →
      normalizeFqStr ("organization:\"" ++ slug ++ "\"")
        = "(organization:\"" ++ slug ++ "\" OR publisher:\"" ++ slug ++ "\")") :=
  ⟨packageSearch_lookup_fq_str cfg args s,
    normalizeFqStr_unquoted slug,
    normalizeFqStr_quoted slug⟩

theorem c6_fq_normalization_witness :
    normalizeFqStr "organization:foo-bar"
      = "(organization:\"foo-bar\" OR publisher:\"foo-bar\")" ∧
    normalizeFqStr "organization:\"foo-bar\""
      = "(organization:\"foo-bar\" OR publisher:\"foo-bar\")" ∧
    ((packageSearch defaultConfig
        (.obj [("fq", .str "organization:foo-bar")])).params.lookup "fq")
      = some (.str "(organization:\"foo-bar\" OR publisher:\"foo-bar\")") := by
  have hgood : goodSlug "foo-bar" := by
    constructor
    · decide
    · decide
  refine ⟨?_, ?_, ?_⟩
  · exact (c6_fq_normalization defaultConfig (.obj []) "" "foo-bar").2.1 hgood
  · exact (c6_fq_normalization defaultConfig (.obj []) "" "foo-bar").2.2 hgood
  · rw [(c6_fq_normalization defaultConfig (.obj [("fq", .str "organization:foo-bar")])
      "organization:foo-bar" "foo-bar").1 rfl]
    rw [show normalizeFqStr "organization:foo-bar"
      = "(organization:\"foo-bar\" OR publisher:\"foo-bar\")" from
      (c6_fq_normalization defaultConfig (.obj []) "" "foo-bar").2.1 hgood]

end OpendataMcp

namespace OpendataMcp

open JVal

/-- C4: every search/listing operation clamps a numeric `limit`/`rows`
value `v` to `min(max(0, v), MAX_ROWS)` in the outgoing request; when the
field is absent, `packageSearch` and `datastoreSearch` send
`DEFAULT_ROWS` and the other listing operations omit the field. -/
theorem c4_row_limit_clamping (cfg : Config) (now : Int) (args argsOrQ lim : JVal) (v : Rat) :
    (args.jGet "rows" = .num v →
      (packageSearch cfg args).params.lookup "rows"
        = some (.num (min (max 0 v) cfg.MAX_ROWS))) ∧
    (args.jGet "rows" = .undefined →
      (packageSearch cfg args).params.lookup "rows" = some (.num cfg.DEFAULT_ROWS)) ∧
    (args.jGet "limit" = .num v →
      (packageList cfg args).params.lookup "limit"
        = some (.num (min (max 0 v) cfg.MAX_ROWS))) ∧
    (args.jGet "limit" = .undefined →
      (packageList cfg args).params.lookup "limit" = none) ∧
    (args.jGet "limit" = .num v →
      (currentPackageListWithResources cfg args).params.lookup "limit"
        = some (.num (min (max 0 v) cfg.MAX_ROWS))) ∧
    (args.jGet "limit" = .undefined →
      (currentPackageListWithResources cfg args).params.lookup "limit" = none) ∧
    (args.jGet "limit" = .num v →
      (packageActivityList cfg args).params.lookup "limit"
        = some (.num (min (max 0 v) cfg.MAX_ROWS))) ∧
    (args.jGet "limit" = .undefined →
      (packageActivityList cfg args).params.lookup "limit" = none) ∧
    (args.jGet "limit" = .num v →
      (recentlyChangedPackagesActivityList cfg now args).params.lookup "limit"
        = some (.num (min (max 0 v) cfg.MAX_ROWS))) ∧
    (args.jGet "limit" = .undefined →
      (recentlyChangedPackagesActivityList cfg now args).params.lookup "limit" = none) ∧
    (args.jGet "limit" = .num v →
      (organizationList cfg args).params.lookup "limit"
        = some (.num (min (max 0 v) cfg.MAX_ROWS))) ∧
    (args.jGet "limit" = .undefined →
      (organizationList cfg args).params.lookup "limit" = none) ∧
    (args.jGet "limit" = .num v →
      (groupList cfg args).params.lookup "limit"
        = some (.num (min (max 0 v) cfg.MAX_ROWS))) ∧
    (args.jGet "limit" = .undefined →
      (groupList cfg args).params.lookup "limit" = none) ∧
    (pickField argsOrQ "limit" lim = .num v →
      (packageAutocomplete cfg argsOrQ lim).params.lookup "limit"
        = some (.num (min (max 0 v) cfg.MAX_ROWS))) ∧
    (pickField argsOrQ "limit" lim = .undefined →
      (packageAutocomplete cfg argsOrQ lim).params.lookup "limit" = none) ∧
    (pickField argsOrQ "limit" lim = .num v →
      (tagAutocomplete cfg argsOrQ lim).params.lookup "limit"
        = some (.num (min (max 0 v) cfg.MAX_ROWS))) ∧
    (pickField argsOrQ "limit" lim = .undefined →
      (tagAutocomplete cfg argsOrQ lim).params.lookup "limit" = none) ∧
    (args.jGet "limit" = .num v →
      (datastoreSearchPayload cfg args).lookup "limit"
        = some (.num (min (max 0 v) cfg.MAX_ROWS))) ∧
    (args.jGet "limit" = .undefined →
      (datastoreSearchPayload cfg args).lookup "limit" = some (.num cfg.DEFAULT_ROWS)) ∧
    (((args.jGet "filters").isTruthyObject || (args.jGet "q").isTruthyObject
        || (args.jGet "fields").isArrayV) = true →
      (datastoreSearch cfg args).body = some (.obj (datastoreSearchPayload cfg args))) ∧
    (((args.jGet "filters").isTruthyObject || (args.jGet "q").isTruthyObject
        || (args.jGet "fields").isArrayV) = false →
      (datastoreSearch cfg args).params
        = buildSearchParams (datastoreSearchPayload cfg args)) ∧
    (args.jGet "limit" = .num v →
      (buildSearchParams (datastoreSearchPayload cfg args)).lookup "limit"
        = some (.num (min (max 0 v) cfg.MAX_ROWS))) ∧
    (args.jGet "limit" = .undefined →
      (buildSearchParams (datastoreSearchPayload cfg args)).lookup "limit"
        = some (.num cfg.DEFAULT_ROWS)) := by
  refine ⟨?_, ?_, ?_, ?_, ?_, ?_, ?_, ?_, ?_, ?_, ?_, ?_, ?_, ?_, ?_, ?_, ?_, ?_, ?_, ?_,
    ?_, ?_, ?_, ?_⟩
  · intro h
    exact packageSearch_lookup_rows_num cfg args v h
  · intro h
    exact packageSearch_lookup_rows_absent cfg args h
  · intro h
    simp only [packageList, getAction, h, clampedOrOmitted]
    rw [lookup_bsp_cons_ne "limit" "offset" _ _ (by decide)]
    exact lookup_bsp_cons_keep "limit" _ _ rfl
  · intro h
    simp only [packageList, getAction, h, clampedOrOmitted]
    rw [lookup_bsp_cons_ne "limit" "offset" _ _ (by decide)]
    rw [lookup_bsp_cons_absent]
    rw [lookup_bsp_cons_ne "limit" "since" _ _ (by decide)]
    exact lookup_bsp_nil "limit"
  · intro h
    simp only [currentPackageListWithResources, getAction, h, clampedOrOmitted]
    rw [lookup_bsp_cons_ne "limit" "offset" _ _ (by decide)]
    exact lookup_bsp_cons_keep "limit" _ _ rfl
  · intro h
    simp only [currentPackageListWithResources, getAction, h, clampedOrOmitted]
    rw [lookup_bsp_cons_ne "limit" "offset" _ _ (by decide)]
    rw [lookup_bsp_cons_absent]
    exact lookup_bsp_nil "limit"
  · intro h
    simp only [packageActivityList, getAction, h, clampedOrOmitted]
    rw [lookup_bsp_cons_ne "limit" "id" _ _ (by decide)]
    exact lookup_bsp_cons_keep "limit" _ _ rfl
  · intro h
    simp only [packageActivityList, getAction, h, clampedOrOmitted]
    rw [lookup_bsp_cons_ne "limit" "id" _ _ (by decide)]
    rw [lookup_bsp_cons_absent]
    rw [lookup_bsp_cons_ne "limit" "offset" _ _ (by decide)]
    exact lookup_bsp_nil "limit"
  · intro h
    simp only [recentlyChangedPackagesActivityList, getAction, h, clampedOrOmitted]
    rw [lookup_bsp_cons_ne "limit" "since_time" _ _ (by decide)]
    exact lookup_bsp_cons_keep "limit" _ _ rfl
  · intro h
    simp only [recentlyChangedPackagesActivityList, getAction, h, clampedOrOmitted]
    rw [lookup_bsp_cons_ne "limit" "since_time" _ _ (by decide)]
    rw [lookup_bsp_cons_absent]
    rw [lookup_bsp_cons_ne "limit" "offset" _ _ (by decide)]
    exact lookup_bsp_nil "limit"
  · intro h
    simp only [organizationList, getAction, h, clampedOrOmitted]
    rw [lookup_bsp_cons_ne "limit" "all_fields" _ _ (by decide)]
    exact lookup_bsp_cons_keep "limit" _ _ rfl
  · intro h
    simp only [organizationList, getAction, h, clampedOrOmitted]
    rw [lookup_bsp_cons_ne "limit" "all_fields" _ _ (by decide)]
    rw [lookup_bsp_cons_absent]
    rw [lookup_bsp_cons_ne "limit" "offset" _ _ (by decide)]
    exact lookup_bsp_nil "limit"
  · intro h
    simp only [groupList, getAction, h, clampedOrOmitted]
    rw [lookup_bsp_cons_ne "limit" "order_by" _ _ (by decide)]
    exact lookup_bsp_cons_keep "limit" _ _ rfl
  · intro h
    simp only [groupList, getAction, h, clampedOrOmitted]
    rw [lookup_bsp_cons_ne "limit" "order_by" _ _ (by decide)]
    rw [lookup_bsp_cons_absent]
    rw [lookup_bsp_cons_ne "limit" "offset" _ _ (by decide)]
    rw [lookup_bsp_cons_ne "limit" "all_fields" _ _ (by decide)]
    exact lookup_bsp_nil "limit"
  · intro h
    simp only [packageAutocomplete, getAction, h, clampedOrOmitted]
    rw [lookup_bsp_cons_ne "limit" "q" _ _ (by decide)]
    exact lookup_bsp_cons_keep "limit" _ _ rfl
  · intro h
    simp only [packageAutocomplete, getAction, h, clampedOrOmitted]
    rw [lookup_bsp_cons_ne "limit" "q" _ _ (by decide)]
    rw [lookup_bsp_cons_absent]
    exact lookup_bsp_nil "limit"
  · intro h
    simp only [tagAutocomplete, getAction, h, clampedOrOmitted]
    rw [lookup_bsp_cons_ne "limit" "q" _ _ (by decide)]
    exact lookup_bsp_cons_keep "limit" _ _ rfl
  · intro h
    simp only [tagAutocomplete, getAction, h, clampedOrOmitted]
    rw [lookup_bsp_cons_ne "limit" "q" _ _ (by decide)]
    rw [lookup_bsp_cons_absent]
    exact lookup_bsp_nil "limit"
  · intro h
    simp only [datastoreSearchPayload, h]
    rw [lookup_keyed_cons_ne "limit" "resource_id" _ _ (by decide)]
    rw [lookup_keyed_cons_ne "limit" "q" _ _ (by decide)]
    rw [lookup_keyed_cons_ne "limit" "filters" _ _ (by decide)]
    rw [lookup_keyed_cons_ne "limit" "fields" _ _ (by decide)]
    rw [lookup_keyed_cons_ne "limit" "sort" _ _ (by decide)]
    rw [lookup_keyed_cons_ne "limit" "language" _ _ (by decide)]
    rw [lookup_keyed_cons_ne "limit" "include_total" _ _ (by decide)]
    exact lookup_keyed_cons_self "limit" _ _
  · intro h
    simp only [datastoreSearchPayload, h]
    rw [lookup_keyed_cons_ne "limit" "resource_id" _ _ (by decide)]
    rw [lookup_keyed_cons_ne "limit" "q" _ _ (by decide)]
    rw [lookup_keyed_cons_ne "limit" "filters" _ _ (by decide)]
    rw [lookup_keyed_cons_ne "limit" "fields" _ _ (by decide)]
    rw [lookup_keyed_cons_ne "limit" "sort" _ _ (by decide)]
    rw [lookup_keyed_cons_ne "limit" "language" _ _ (by decide)]
    rw [lookup_keyed_cons_ne "limit" "include_total" _ _ (by decide)]
    exact lookup_keyed_cons_self "limit" _ _
  · intro h
    simp [datastoreSearch, postAction, h]
  · intro h
    simp [datastoreSearch, getAction, h]
  · intro h
    simp only [datastoreSearchPayload, h]
    rw [lookup_bsp_cons_ne "limit" "resource_id" _ _ (by decide)]
    rw [lookup_bsp_cons_ne "limit" "q" _ _ (by decide)]
    rw [lookup_bsp_cons_ne "limit" "filters" _ _ (by decide)]
    rw [lookup_bsp_cons_ne "limit" "fields" _ _ (by decide)]
    rw [lookup_bsp_cons_ne "limit" "sort" _ _ (by decide)]
    rw [lookup_bsp_cons_ne "limit" "language" _ _ (by decide)]
    rw [lookup_bsp_cons_ne "limit" "include_total" _ _ (by decide)]
    exact lookup_bsp_cons_keep "limit" _ _ rfl
  · intro h
    simp only [datastoreSearchPayload, h]
    rw [lookup_bsp_cons_ne "limit" "resource_id" _ _ (by decide)]
    rw [lookup_bsp_cons_ne "limit" "q" _ _ (by decide)]
    rw [lookup_bsp_cons_ne "limit" "filters" _ _ (by decide)]
    rw [lookup_bsp_cons_ne "limit" "fields" _ _ (by decide)]
    rw [lookup_bsp_cons_ne "limit" "sort" _ _ (by decide)]
    rw [lookup_bsp_cons_ne "limit" "language" _ _ (by decide)]
    rw [lookup_bsp_cons_ne "limit" "include_total" _ _ (by decide)]
    exact lookup_bsp_cons_keep "limit" _ _ rfl

end OpendataMcp

namespace OpendataMcp

open JVal

theorem c4_row_limit_clamping_witness :
    (packageSearch defaultConfig (.obj [("rows", .num 5000)])).params.lookup "rows"
      = some (.num 1000) ∧
    (packageSearch defaultConfig (.obj [("rows", .num (-7))])).params.lookup "rows"
      = some (.num 0) ∧
    (packageSearch defaultConfig (.obj [])).params.lookup "rows" = some (.num 25) ∧
    (packageList defaultConfig (.obj [("limit", .num 2000)])).params.lookup "limit"
      = some (.num 1000) ∧
    (packageList defaultConfig (.obj [])).params.lookup "limit" = none := by
  refine ⟨?_, ?_, ?_, ?_, ?_⟩
  · rw [(c4_row_limit_clamping defaultConfig 0 (.obj [("rows", .num 5000)]) .undefined .undefined
      5000).1 rfl]
    norm_num [defaultConfig]
  · rw [(c4_row_limit_clamping defaultConfig 0 (.obj [("rows", .num (-7))]) .undefined .undefined
      (-7)).1 rfl]
    norm_num [defaultConfig]
  · rw [(c4_row_limit_clamping defaultConfig 0 (.obj []) .undefined .undefined 0).2.1 rfl]
    rfl
  · rw [(c4_row_limit_clamping defaultConfig 0 (.obj [("limit", .num 2000)]) .undefined .undefined
      2000).2.2.1 rfl]
    norm_num [defaultConfig]
  · exact (c4_row_limit_clamping defaultConfig 0 (.obj []) .undefined .undefined 0).2.2.2.1 rfl

end OpendataMcp

namespace OpendataMcp

open JVal

/-- C9: the global activity feed issues its request with twice the default
timeout and defaults `since_time` to one hour before the current clock
when the caller supplies none; every other operation uses the default
timeout. -/
theorem c9_activity_feed_timeout_and_window (cfg : Config) (now : Int)
    (args argsOrQ lim id incp nm : JVal) (sql url : String) :
    (recentlyChangedPackagesActivityList cfg now args).timeout = cfg.TIMEOUT_MS * 2 ∧
    (args.jGet "since_time" = .undefined →
      (recentlyChangedPackagesActivityList cfg now args).params.lookup "since_time"
        = some (.str (isoOf (now - oneHourMs)))) ∧
    oneHourMs = 3600000 ∧
    (packageSearch cfg args).timeout = cfg.TIMEOUT_MS ∧
    (packageShow cfg id).timeout = cfg.TIMEOUT_MS ∧
    (packageList cfg args).timeout = cfg.TIMEOUT_MS ∧
    (currentPackageListWithResources cfg args).timeout = cfg.TIMEOUT_MS ∧
    (packageAutocomplete cfg argsOrQ lim).timeout = cfg.TIMEOUT_MS ∧
    (packageActivityList cfg args).timeout = cfg.TIMEOUT_MS ∧
    (organizationList cfg args).timeout = cfg.TIMEOUT_MS ∧
    (organizationShow cfg id).timeout = cfg.TIMEOUT_MS ∧
    (groupList cfg args).timeout = cfg.TIMEOUT_MS ∧
    (groupShow cfg id).timeout = cfg.TIMEOUT_MS ∧
    (tagList cfg args).timeout = cfg.TIMEOUT_MS ∧
    (tagAutocomplete cfg argsOrQ lim).timeout = cfg.TIMEOUT_MS ∧
    (licenseList cfg).timeout = cfg.TIMEOUT_MS ∧
    (vocabularyList cfg).timeout = cfg.TIMEOUT_MS ∧
    (vocabularyShow cfg id).timeout = cfg.TIMEOUT_MS ∧
    (tagShow cfg id).timeout = cfg.TIMEOUT_MS ∧
    (resourceShow cfg id).timeout = cfg.TIMEOUT_MS ∧
    (resourceViewShow cfg id).timeout = cfg.TIMEOUT_MS ∧
    (resourceViewList cfg id).timeout = cfg.TIMEOUT_MS ∧
    (statusShow cfg).timeout = cfg.TIMEOUT_MS ∧
    (helpShow cfg nm).timeout = cfg.TIMEOUT_MS ∧
    (datastoreInfo cfg id incp).timeout = cfg.TIMEOUT_MS ∧
    (datastoreSearch cfg args).timeout = cfg.TIMEOUT_MS ∧
    (∀ r, datastoreSearchSql cfg sql = .ok r → r.timeout = cfg.TIMEOUT_MS) ∧
    (fetchResource cfg url).timeout = cfg.TIMEOUT_MS := by
  refine ⟨rfl, ?_, rfl, rfl, rfl, rfl, rfl, rfl, rfl, rfl, rfl, rfl, rfl, rfl, rfl, rfl,
    rfl, rfl, rfl, rfl, rfl, rfl, rfl, rfl, rfl, ?_, ?_, rfl⟩
  · intro h
    simp only [recentlyChangedPackagesActivityList, getAction, h]
    exact lookup_bsp_cons_keep _ _ _ (keepParam_str _)
  · unfold datastoreSearch
    by_cases h : ((args.jGet "filters").isTruthyObject || (args.jGet "q").isTruthyObject
        || (args.jGet "fields").isArrayV) = true
    · simp only [h, if_true]
      rfl
    · simp only [h, if_false]
      rfl
  · intro r h
    unfold datastoreSearchSql at h
    by_cases hsql : cfg.ENABLE_SQL
    · rw [if_neg (by simp [hsql])] at h
      by_cases hforb : forbiddenTest sql
      · rw [if_pos hforb] at h
        cases h
      · rw [if_neg hforb] at h
        cases h
        rfl
    · rw [if_pos (by simp [hsql])] at h
      cases h

theorem c9_activity_feed_timeout_and_window_witness :
    (recentlyChangedPackagesActivityList defaultConfig 1700000000000 (.obj [])).timeout
      = 30000 ∧
    (recentlyChangedPackagesActivityList defaultConfig 1700000000000
        (.obj [])).params.lookup "since_time"
      = some (.str "2023-11-14T21:13:20.000Z") ∧
    (packageSearch defaultConfig (.obj [])).timeout = 15000 := by
  refine ⟨?_, ?_, ?_⟩
  · rw [(c9_activity_feed_timeout_and_window defaultConfig 1700000000000 (.obj []) .undefined
      .undefined .undefined .undefined .undefined "" "").1]
    norm_num [defaultConfig]
  · rw [(c9_activity_feed_timeout_and_window defaultConfig 1700000000000 (.obj []) .undefined
      .undefined .undefined .undefined .undefined "" "").2.1 rfl]
    rfl
  · rw [(c9_activity_feed_timeout_and_window defaultConfig 1700000000000 (.obj []) .undefined
      .undefined .undefined .undefined .undefined "" "").2.2.2.1]
    rfl

end OpendataMcp

namespace OpendataMcp

open JVal

/-- The C8 counterexample arguments: a POST-routed datastore search
carrying an explicit `null` parameter. -/
def c8Args : JVal := .obj [("resource_id", .str "abc"), ("filters", .obj []), ("sort", .null)]

/-- C8 as stated is false: for POST-based calls a `null`-valued parameter
does appear as a key in the outgoing request — `datastoreSearch` with
`sort: null` produces a POST body whose serialization retains
`"sort":null`. -/
theorem c8_null_key_counterexample :
    (datastoreSearch defaultConfig c8Args).method = .post ∧
    (datastoreSearch defaultConfig c8Args).body
      = some (.obj (datastoreSearchPayload defaultConfig c8Args)) ∧
    "sort" ∈ serializedObjKeys (datastoreSearchPayload defaultConfig c8Args) ∧
    jsonStringify (.obj (datastoreSearchPayload defaultConfig c8Args))
      = "\x7b\"resource_id\":\"abc\",\"filters\":\x7b\x7d,\"sort\":null,\"include_total\":false,\"limit\":25\x7d" := by
  refine ⟨rfl, rfl, ?_, rfl⟩
  show "sort" ∈ ["resource_id", "filters", "sort", "include_total", "limit"]
  decide

/-- C8 (amended): for GET query parameters, `undefined`- and `null`-valued
parameters never appear as keys and array/object values appear as their
JSON-text serialization; for POST bodies, `undefined`-valued fields are
omitted from the serialized body but every other field — `null` included —
is retained. `getAction`/`postAction` route every operation's parameters
through exactly these two treatments. -/
theorem c8_param_serialization (cfg : Config) (path actionName : String)
    (ps fs : List (String × JVal)) (j : JVal) (k : String) (v : JVal) :
    (k ∈ (buildSearchParams ps).map Prod.fst →
      ∃ w, (k, w) ∈ ps ∧ keepParam w = true) ∧
    ((k, v) ∈ ps → (v.isArrayV = true ∨ v.isPlainObject = true) →
      (k, .str (jsonStringify v)) ∈ buildSearchParams ps) ∧
    (k ∈ serializedObjKeys fs → ∃ w, (k, w) ∈ fs ∧ w.isUndefinedV = false) ∧
    ((k, v) ∈ fs → v.isUndefinedV = false → k ∈ serializedObjKeys fs) ∧
    (getAction cfg path ps actionName).params = buildSearchParams ps ∧
    (postAction cfg path j actionName).body = some j := by
  refine ⟨?_, ?_, ?_, ?_, rfl, rfl⟩
  · induction ps with
    | nil => intro h; cases h
    | cons p rest ih =>
      obtain ⟨k', v'⟩ := p
      intro h
      by_cases hk : keepParam v'
      · rw [bsp_cons_keep k' v' rest hk] at h
        rcases List.mem_cons.mp h with heq | htail
        · exact ⟨v', by simp [heq], hk⟩
        · obtain ⟨w, hw, hkw⟩ := ih htail
          exact ⟨w, List.mem_cons_of_mem _ hw, hkw⟩
      · rw [bsp_cons_drop k' v' rest (by simpa using hk)] at h
        obtain ⟨w, hw, hkw⟩ := ih h
        exact ⟨w, List.mem_cons_of_mem _ hw, hkw⟩
  · intro hmem hao
    have hkeep : keepParam v = true := by
      rcases hao with h | h <;> cases v <;> simp_all [isArrayV, isPlainObject, keepParam]
    have henc : encodeParam v = .str (jsonStringify v) := by
      rcases hao with h | h <;> cases v <;> simp_all [isArrayV, isPlainObject, encodeParam]
    induction ps with
    | nil => cases hmem
    | cons p rest ih =>
      obtain ⟨k', v'⟩ := p
      rcases List.mem_cons.mp hmem with heq | htail
      · obtain ⟨hk, hv⟩ := Prod.mk.injEq .. ▸ heq
        subst hk
        subst hv
        rw [bsp_cons_keep k v rest hkeep, henc]
        exact List.mem_cons_self _ _
      · by_cases hk : keepParam v'
        · rw [bsp_cons_keep k' v' rest hk]
          exact List.mem_cons_of_mem _ (ih htail)
        · rw [bsp_cons_drop k' v' rest (by simpa using hk)]
          exact ih htail
  · intro h
    unfold serializedObjKeys at h
    obtain ⟨⟨k', w⟩, hmem, hk⟩ := List.mem_map.mp h
    obtain ⟨hin, hkeep⟩ := List.mem_filter.mp hmem
    cases hk
    exact ⟨w, hin, by simpa using hkeep⟩
  · intro hmem hnund
    unfold serializedObjKeys
    exact List.mem_map.mpr ⟨(k, v), List.mem_filter.mpr ⟨hmem, by simpa using hnund⟩, rfl⟩

theorem c8_param_serialization_witness :
    ("fq" ∈ (buildSearchParams [("fq", JVal.null)]).map Prod.fst → False) ∧
    ("fq", JVal.str (jsonStringify (.arr [.str "language:de"])))
      ∈ buildSearchParams [("fq", JVal.arr [.str "language:de"])] ∧
    ("sort" ∈ serializedObjKeys [("sort", JVal.undefined)] → False) ∧
    "sort" ∈ serializedObjKeys [("sort", JVal.null)] := by
  refine ⟨?_, ?_, ?_, ?_⟩
  · intro h
    obtain ⟨w, hw, hkeep⟩ :=
      (c8_param_serialization defaultConfig "" "" [("fq", JVal.null)] [] .null "fq"
        .null).1 h
    have : w = JVal.null := by
      rcases List.mem_cons.mp hw with heq | habs
      · exact (Prod.mk.injEq .. ▸ heq).2
      · cases habs
    rw [this] at hkeep
    cases hkeep
  · exact (c8_param_serialization defaultConfig "" ""
      [("fq", JVal.arr [.str "language:de"])] [] (.arr [.str "language:de"]) "fq"
      (.arr [.str "language:de"])).2.1 (List.mem_cons_self _ _) (Or.inl rfl)
  · intro h
    obtain ⟨w, hw, hund⟩ :=
      (c8_param_serialization defaultConfig "" "" [] [("sort", JVal.undefined)] .null "sort"
        .null).2.2.1 h
    have : w = JVal.undefined := by
      rcases List.mem_cons.mp hw with heq | habs
      · exact (Prod.mk.injEq .. ▸ heq).2
      · cases habs
    rw [this] at hund
    cases hund
  · exact (c8_param_serialization defaultConfig "" "" [] [("sort", JVal.null)] .null "sort"
      .null).2.2.2.1 (List.mem_cons_self _ _) rfl

end OpendataMcp

namespace OpendataMcp

open JVal

/-- C5 as stated is false: `package_search` is validated by a non-strict
schema, so an arguments object with an undeclared top-level field parses
successfully (the field is silently stripped) and the handler proceeds to
call the upstream client instead of rejecting. -/
theorem c5_unknown_field_counterexample :
    zParse PackageSearchSchema (.obj [("bogus", .num 1)]) = .ok (.obj []) ∧
    (package_search_tool defaultConfig upstream0 (.obj [("bogus", .num 1)])).1.jGet "isError"
      = .undefined ∧
    (package_search_tool defaultConfig upstream0 (.obj [("bogus", .num 1)])).2
      = [packageSearch defaultConfig (.obj [])] :=
  ⟨rfl, rfl, rfl⟩

/-- C5 (amended): only the strict schemas — `license_list` and
`vocabulary_list` — reject an undeclared top-level field; every other
tool's schema accepts the object and strips unknown fields, so the
validated arguments that reach the Upstream Client contain only declared
keys. -/
theorem c5_unknown_field_handling (s : ZObject) (v d : JVal) (k : String) (w : JVal)
    (rest fs : List (String × JVal)) :
    zParse LicenseListSchema (.obj ((k, w) :: rest))
      = .error "Unrecognized key(s) in object" ∧
    zParse VocabularyListSchema (.obj ((k, w) :: rest))
      = .error "Unrecognized key(s) in object" ∧
    (zParse s v = .ok d →
      ∃ gs, d = .obj gs ∧ ∀ k2 w2, (k2, w2) ∈ gs → k2 ∈ s.fields.map FieldSpec.name) ∧
    (s.strict = false → checkFields (.obj fs) s.fields = .ok () →
      zParse s (.obj fs) = .ok (stripTo s.fields (.obj fs))) :=
  ⟨zParse_strict_rejects LicenseListSchema ((k, w) :: rest) rfl rfl
      (by simp [hasUnknownKey, LicenseListSchema]),
    zParse_strict_rejects VocabularyListSchema ((k, w) :: rest) rfl rfl
      (by simp [hasUnknownKey, VocabularyListSchema]),
    zParse_strips s v d,
    zParse_nonstrict_ok s fs⟩

theorem c5_unknown_field_handling_witness :
    zParse LicenseListSchema (.obj [("extra", .bool true)])
      = .error "Unrecognized key(s) in object" ∧
    zParse VocabularyListSchema (.obj [("extra", .bool true)])
      = .error "Unrecognized key(s) in object" ∧
    zParse PackageSearchSchema (.obj [("bogus", .num 1), ("q", .str "a")])
      = .ok (stripTo PackageSearchSchema.fields
          (.obj [("bogus", .num 1), ("q", .str "a")])) := by
  refine ⟨?_, ?_, ?_⟩
  · exact (c5_unknown_field_handling LicenseListSchema .null .null "extra" (.bool true)
      [] []).1
  · exact (c5_unknown_field_handling VocabularyListSchema .null .null "extra" (.bool true)
      [] []).2.1
  · exact (c5_unknown_field_handling PackageSearchSchema .null .null "x" .null []
      [("bogus", .num 1), ("q", .str "a")]).2.2.2 rfl rfl

/-- The shared validation-failure behavior of every schema-validated tool
handler: a failed parse yields `isError: true` with a nonempty diagnostic
and no upstream request. -/
theorem mkTool_validation_failure (schema : ZObject) (wrap : String → String)
    (run : JVal → Request) (up : Upstream) (args : JVal) (m : String)
    (hm : zParse schema (jsOrEmpty args) = .error m)
    (hw : wrap m ≠ "") :
    (mkTool schema wrap run up args).1.jGet "isError" = .bool true ∧
    (∃ t, envelopeText (mkTool schema wrap run up args).1 = .str t ∧ t ≠ "") ∧
    (mkTool schema wrap run up args).2 = [] := by
  unfold mkTool
  rw [hm]
  exact ⟨rfl, ⟨wrap m, rfl, hw⟩, rfl⟩

/-- C1: for every registered tool with a validation schema, any arguments
object the schema rejects (missing required field, wrong type,
out-of-range number) produces an envelope with `isError: true` carrying a
nonempty diagnostic, and the Upstream Client is never called; moreover a
missing required field always fails validation, as does any present field
whose value fails its declared check. -/
theorem c1_invalid_args_rejected :
    (∀ (cfg : Config) (now : Int) (up : Upstream) (name : String)
        (h : JVal → JVal × List Request) (schema : ZObject) (args : JVal) (m : String),
      (name, h) ∈ toolHandlerList cfg now up →
      toolValidator name = some schema →
      zParse schema (jsOrEmpty args) = .error m →
      (h args).1.jGet "isError" = .bool true ∧
      (∃ t, envelopeText (h args).1 = .str t ∧ t ≠ "") ∧
      (h args).2 = []) ∧
    (∀ (s : ZObject) (fs : List (String × JVal)) (f : FieldSpec),
      f ∈ s.fields → f.optional = false → (JVal.obj fs).jGet f.name = .undefined →
      ∃ m, zParse s (.obj fs) = .error m) ∧
    (∀ (s : ZObject) (fs : List (String × JVal)) (f : FieldSpec) (w : JVal),
      f ∈ s.fields → (JVal.obj fs).jGet f.name = w → w.isUndefinedV = false →
      f.check w = false → ∃ m, zParse s (.obj fs) = .error m) := by
  refine ⟨?_, zParse_missing_required, zParse_bad_field⟩
  intro cfg now up name h schema args m hmem hval hm
  simp only [toolHandlerList, List.mem_cons, List.not_mem_nil, or_false,
    Prod.mk.injEq] at hmem
  obtain hcase | hmem := hmem
  · obtain ⟨rfl, rfl⟩ := hcase
    injection hval with hinj
    subst hinj
    exact mkTool_validation_failure _ _ _ _ _ _ hm
      (string_append_ne_empty_left _ _ (by decide))
  obtain hcase | hmem := hmem
  · obtain ⟨rfl, rfl⟩ := hcase
    injection hval with hinj
    subst hinj
    exact mkTool_validation_failure _ _ _ _ _ _ hm
      (string_append_ne_empty_left _ _ (by decide))
  obtain hcase | hmem := hmem
  · obtain ⟨rfl, rfl⟩ := hcase
    injection hval with hinj
    subst hinj
    exact mkTool_validation_failure _ _ _ _ _ _ hm
      (string_append_ne_empty_left _ _ (by decide))
  obtain hcase | hmem := hmem
  · obtain ⟨rfl, rfl⟩ := hcase
    injection hval with hinj
    subst hinj
    exact mkTool_validation_failure _ _ _ _ _ _ hm
      (string_append_ne_empty_left _ _ (by decide))
  obtain hcase | hmem := hmem
  · obtain ⟨rfl, rfl⟩ := hcase
    injection hval with hinj
    subst hinj
    exact mkTool_validation_failure _ _ _ _ _ _ hm
      (string_append_ne_empty_left _ _ (by decide))
  obtain hcase | hmem := hmem
  · obtain ⟨rfl, rfl⟩ := hcase
    injection hval with hinj
    subst hinj
    exact mkTool_validation_failure _ _ _ _ _ _ hm
      (string_append_ne_empty_left _ _ (by decide))
  obtain hcase | hmem := hmem
  · obtain ⟨rfl, rfl⟩ := hcase
    injection hval with hinj
    subst hinj
    exact mkTool_validation_failure _ _ _ _ _ _ hm
      (string_append_ne_empty_left _ _ (by decide))
  obtain hcase | hmem := hmem
  · obtain ⟨rfl, rfl⟩ := hcase
    injection hval with hinj
    subst hinj
    exact mkTool_validation_failure _ _ _ _ _ _ hm (zParse_error_ne _ _ _ hm)
  obtain hcase | hmem := hmem
  · obtain ⟨rfl, rfl⟩ := hcase
    injection hval with hinj
    subst hinj
    exact mkTool_validation_failure _ _ _ _ _ _ hm (zParse_error_ne _ _ _ hm)
  obtain hcase | hmem := hmem
  · obtain ⟨rfl, rfl⟩ := hcase
    injection hval with hinj
    subst hinj
    exact mkTool_validation_failure _ _ _ _ _ _ hm (zParse_error_ne _ _ _ hm)
  obtain hcase | hmem := hmem
  · obtain ⟨rfl, rfl⟩ := hcase
    injection hval with hinj
    subst hinj
    exact mkTool_validation_failure _ _ _ _ _ _ hm (zParse_error_ne _ _ _ hm)
  obtain hcase | hmem := hmem
  · obtain ⟨rfl, rfl⟩ := hcase
    injection hval with hinj
    subst hinj
    exact mkTool_validation_failure _ _ _ _ _ _ hm (zParse_error_ne _ _ _ hm)
  obtain hcase | hmem := hmem
  · obtain ⟨rfl, rfl⟩ := hcase
    injection hval with hinj
    subst hinj
    exact mkTool_validation_failure _ _ _ _ _ _ hm (zParse_error_ne _ _ _ hm)
  obtain hcase | hmem := hmem
  · obtain ⟨rfl, rfl⟩ := hcase
    injection hval with hinj
    subst hinj
    exact mkTool_validation_failure _ _ _ _ _ _ hm (zParse_error_ne _ _ _ hm)
  obtain hcase | hmem := hmem
  · obtain ⟨rfl, rfl⟩ := hcase
    injection hval with hinj
    subst hinj
    exact mkTool_validation_failure _ _ _ _ _ _ hm (zParse_error_ne _ _ _ hm)
  obtain hcase | hmem := hmem
  · obtain ⟨rfl, rfl⟩ := hcase
    injection hval with hinj
    subst hinj
    exact mkTool_validation_failure _ _ _ _ _ _ hm (zParse_error_ne _ _ _ hm)
  obtain hcase | hmem := hmem
  · obtain ⟨rfl, rfl⟩ := hcase
    injection hval with hinj
    subst hinj
    exact mkTool_validation_failure _ _ _ _ _ _ hm (zParse_error_ne _ _ _ hm)
  obtain hcase | hmem := hmem
  · obtain ⟨rfl, rfl⟩ := hcase
    injection hval with hinj
    subst hinj
    exact mkTool_validation_failure _ _ _ _ _ _ hm (zParse_error_ne _ _ _ hm)
  obtain hcase | hmem := hmem
  · obtain ⟨rfl, rfl⟩ := hcase
    injection hval with hinj
    subst hinj
    exact mkTool_validation_failure _ _ _ _ _ _ hm (zParse_error_ne _ _ _ hm)
  obtain hcase | hmem := hmem
  · obtain ⟨rfl, rfl⟩ := hcase
    injection hval with hinj
    subst hinj
    refine ⟨?_, ⟨m, ?_, zParse_error_ne _ _ _ hm⟩, ?_⟩ <;>
      simp [datastore_search_sql_tool, hm, errEnvelope_text, errEnvelope_isError]
  obtain hcase | hmem := hmem
  · obtain ⟨rfl, rfl⟩ := hcase
    injection hval with hinj
    subst hinj
    exact mkTool_validation_failure _ _ _ _ _ _ hm (zParse_error_ne _ _ _ hm)
  obtain hcase | hmem := hmem
  · obtain ⟨rfl, rfl⟩ := hcase
    injection hval with hinj
    subst hinj
    exact mkTool_validation_failure _ _ _ _ _ _ hm (zParse_error_ne _ _ _ hm)
  obtain hcase | hmem := hmem
  · obtain ⟨rfl, rfl⟩ := hcase
    injection hval with hinj
    subst hinj
    exact mkTool_validation_failure _ _ _ _ _ _ hm (zParse_error_ne _ _ _ hm)
  obtain hcase | hmem := hmem
  · obtain ⟨rfl, rfl⟩ := hcase
    exact Option.noConfusion hval
  obtain ⟨rfl, rfl⟩ := hmem
  injection hval with hinj
  subst hinj
  exact mkTool_validation_failure _ _ _ _ _ _ hm (zParse_error_ne _ _ _ hm)

theorem c1_invalid_args_rejected_witness :
    ((package_show_tool defaultConfig upstream0 (.obj [])).1.jGet "isError" = .bool true ∧
      (package_show_tool defaultConfig upstream0 (.obj [])).2 = []) ∧
    ((package_search_tool defaultConfig upstream0
        (.obj [("rows", .num (-5))])).1.jGet "isError" = .bool true ∧
      (package_search_tool defaultConfig upstream0 (.obj [("rows", .num (-5))])).2 = []) ∧
    ((package_list_tool defaultConfig upstream0
        (.obj [("limit", .str "ten")])).1.jGet "isError" = .bool true ∧
      (package_list_tool defaultConfig upstream0 (.obj [("limit", .str "ten")])).2 = []) := by
  have h1 := (c1_invalid_args_rejected).1 defaultConfig 0 upstream0 "package_show"
    (package_show_tool defaultConfig upstream0) PackageShowSchema (.obj [])
    "Required field missing: id"
    (List.mem_cons_of_mem _ (List.mem_cons_self _ _)) rfl rfl
  have h2 := (c1_invalid_args_rejected).1 defaultConfig 0 upstream0 "package_search"
    (package_search_tool defaultConfig upstream0) PackageSearchSchema
    (.obj [("rows", .num (-5))]) "Invalid value for field rows"
    (List.mem_cons_self _ _) rfl rfl
  have h3 := (c1_invalid_args_rejected).1 defaultConfig 0 upstream0 "package_list"
    (package_list_tool defaultConfig upstream0) PackageListSchema
    (.obj [("limit", .str "ten")]) "Invalid value for field limit"
    (List.mem_cons_of_mem _ (List.mem_cons_of_mem _ (List.mem_cons_self _ _))) rfl rfl
  exact ⟨⟨h1.1, h1.2.2⟩, ⟨h2.1, h2.2.2⟩, ⟨h3.1, h3.2.2⟩⟩

end OpendataMcp
